import Mathlib

/-!
# R-Car TA certificate authentication (plat-rcar)

A shallow embedding of `core/arch/arm/plat-rcar/rcar_ta_auth.c` and
`core/arch/arm/plat-rcar/rcar_maskrom.c`.

Modelling conventions.

* `uint32_t` values are natural numbers; every `uint32_t` operation that can
  leave the 32-bit range is written with an explicit `% 2 ^ 32`.
* Addresses are natural numbers and memory is a function from addresses to
  bytes.  Pointers are 4 bytes wide with `ARM32` and 8 bytes wide without.
  The pointer sum the code forms from a size read in the input,
  `fixed_base + object_size` at the layout check, is reduced modulo the
  pointer width (`ptr_add`).  The pointer sums that walk the input
  (`key_cert + key_cert_size`, the word views, the sources and destinations of
  `memcpy`) are exact sums of natural numbers.
* The targets are little-endian: a `uint32_t` load assembles four bytes,
  least significant first.
* Code outside the two source files (the mask ROM, the MMIO registers, the
  hardware-engine lock) is an explicit parameter (`World`); constants coming
  from headers that are not part of the two files are fields of `Platform`.
* Calls to the outside, the three `memcpy`s and the store through
  `secmem_ta` are recorded, in program order, in a list of `Event`s.
  Trace output (`EMSG`, `DMSG`) is not modelled.
-/

namespace Rcar

/-! ## Memory -/

/-- Byte-addressed memory. -/
abbrev Mem := Nat → Nat

/-- A little-endian `uint32_t` load at byte address `a`. -/
def load32 (m : Mem) (a : Nat) : Nat :=
  m a % 256 + 256 * (m (a + 1) % 256) + 65536 * (m (a + 2) % 256)
    + 16777216 * (m (a + 3) % 256)

/-- The view `(const uint32_t *)ptr`: index `i` is the word at `ptr + 4 * i`. -/
def as_u32_ptr (m : Mem) (ptr : Nat) : Nat → Nat :=
  fun i => load32 m (ptr + 4 * i)

/-- The libc `memcpy(dst, src, n)`: byte `dst + i` receives the byte that was
at `src + i` before the call, for every `i < n`. -/
def memcpy (m : Mem) (dst src n : Nat) : Mem :=
  fun a => if dst ≤ a ∧ a < dst + n then m (src + (a - dst)) else m a

/-! ## Constants of `rcar_ta_auth.c` -/

def TA_KEY_CERT_AREA_SIZE : Nat := 4096
def TA_CONTENT_CERT_AREA_SIZE : Nat := 4096
def TA_NONCACHE_STACK_AREA_SIZE : Nat := 4096
def CERT_SIGNATURE_SIZE : Nat := 256
def CERT_STORE_ADDR_SIZE : Nat := 8
def CERT_REC_LEN_SIZE : Nat := 4
def CERT_ADD_DATA_SIZE : Nat := CERT_STORE_ADDR_SIZE + CERT_REC_LEN_SIZE
def CERT_OFS_BIT_SIZE : Nat := 0xffff
def CERT_BLOCK_SIZE : Nat := 4
def CERT_IDX_MAGIC : Nat := 0
def CERT_IDX_VER : Nat := 1
def CERT_IDX_SIZE : Nat := 2
def CERT_IDX_FLAG : Nat := 3
def KEY_CERT_DEFAULT_SIZE : Nat := 0x24c
def CONTENT_CERT_DEFAULT_SIZE : Nat := 0x268
def LCS_CM : Nat := 0
def LCS_DM : Nat := 1
def LCS_SD : Nat := 3
def LCS_SE : Nat := 5
def LCS_FA : Nat := 7
def SECURE_BOOT_MODE : Nat := 0
def NORMAL_BOOT_MODE : Nat := 1
def NULL : Nat := 0

/-! ## Certificate parser -/

/-- The function `get_key_cert_size` of `rcar_ta_auth.c`; `cert_header` is the
word array the pointer argument designates. -/
def get_key_cert_size (cert_header : Nat → Nat) : Nat :=
  let cert_size :=
    ((cert_header CERT_IDX_SIZE &&& CERT_OFS_BIT_SIZE) * CERT_BLOCK_SIZE) % 2 ^ 32
  let hdr_tmp := (cert_header CERT_IDX_FLAG &&& 0x00600000) >>> 21
  let sig_size := CERT_SIGNATURE_SIZE
  let sig_size :=
    if hdr_tmp = 1 then (sig_size + CERT_SIGNATURE_SIZE / 2) % 2 ^ 32
    else if hdr_tmp = 2 then (sig_size + CERT_SIGNATURE_SIZE) % 2 ^ 32
    else sig_size
  (cert_size + sig_size) % 2 ^ 32

/-- The function `get_content_cert_size` of `rcar_ta_auth.c`. -/
def get_content_cert_size (cert_header : Nat → Nat) : Nat :=
  (get_key_cert_size cert_header + CERT_ADD_DATA_SIZE) % 2 ^ 32

/-- The function `get_object_size` of `rcar_ta_auth.c`; `content_cert` is an
address in `m`. -/
def get_object_size (m : Mem) (content_cert : Nat) : Nat :=
  let cert_header := as_u32_ptr m content_cert
  let offset := (get_key_cert_size cert_header + CERT_STORE_ADDR_SIZE) % 2 ^ 32
  let obj_len := content_cert + offset
  let obj_size := load32 m obj_len
  (obj_size * CERT_BLOCK_SIZE) % 2 ^ 32

/-- The signature-length extension as the specification words it: a function
of bits [22:21] of the flag word, codes 0, 1, 2, 3 giving 256, 384, 512, 256. -/
def spec_sig_ext (flag : Nat) : Nat :=
  match (flag / 2 ^ 21) % 4 with
  | 0 => 256
  | 1 => 384
  | 2 => 512
  | _ => 256

/-! ## Platform, mask ROM and product state -/

/-- Constants the two files take from headers outside them
(`platform_config.h`, `rcar_common.h`, `rcar_maskrom.h`, `tee_api_defines.h`)
and the build switch `ARM32`. -/
structure Platform where
  ARM32 : Bool
  TA_VERIFICATION_BASE : Nat
  TA_VERIFICATION_SIZE : Nat
  RST_BASE : Nat
  MFIS_BASE : Nat
  PRR : Nat
  PRR_PRODUCT_MASK : Nat
  PRR_PRODUCT_H3 : Nat
  PRR_PRODUCT_M3 : Nat
  PRR_PRODUCT_UNKNOWN : Nat
  HWENG_SECURE_CORE : Nat
  TEE_SUCCESS : Nat
  TEE_ERROR_SECURITY : Nat

def TA_NONCACHE_STACK_ADDR (p : Platform) : Nat :=
  p.TA_VERIFICATION_BASE + p.TA_VERIFICATION_SIZE

def TA_CONTENT_CERT_ADDR (p : Platform) : Nat :=
  TA_NONCACHE_STACK_ADDR p - TA_NONCACHE_STACK_AREA_SIZE - TA_CONTENT_CERT_AREA_SIZE

def TA_KEY_CERT_ADDR (p : Platform) : Nat :=
  TA_CONTENT_CERT_ADDR p - TA_KEY_CERT_AREA_SIZE

/-- The width of a pointer in bits: 32 with `ARM32`, 64 without. -/
def ptr_bits (p : Platform) : Nat := if p.ARM32 then 32 else 64

/-- The pointer sum `ptr + n` as the machine computes it: modulo the pointer
width. -/
def ptr_add (p : Platform) (ptr n : Nat) : Nat := (ptr + n) % 2 ^ ptr_bits p

def RST_MODEMR (p : Platform) : Nat := p.RST_BASE + 0x0060
def MFIS_SOFTMDR (p : Platform) : Nat := p.MFIS_BASE + 0x0600

def ADDR_ROM_SECURE_API_H3 (p : Platform) : Nat :=
  if p.ARM32 then 0xeb101f54 else 0xeb10dd64
def ADDR_ROM_GETLCS_API_H3 (p : Platform) : Nat :=
  if p.ARM32 then 0xeb1021b4 else 0xeb10dfe0
def ADDR_ROM_SECURE_API_M3 (p : Platform) : Nat :=
  if p.ARM32 then 0xeb103efc else 0xeb1102fc
def ADDR_ROM_GETLCS_API_M3 (p : Platform) : Nat :=
  if p.ARM32 then 0xeb10415c else 0xeb110578

/-- What the code calls but does not define.  Every value is a `uint32_t`.

* `read32 a`: the MMIO register at address `a`;
* `ROM_GetLcs e`: the ROM routine at entry `e`, giving its status and the
  value found in `lcs` when it returns;
* `ROM_SecureBootAPI e m k c r`: the ROM routine at entry `e` run on memory
  `m` with arguments `k`, `c`, `r`, giving its status and the memory it
  leaves;
* `hw_engine_lock e`: the handle stored through the first argument of
  `hw_engine_lock` for engine `e`. -/
structure World where
  read32 : Nat → Nat
  ROM_GetLcs : Nat → Nat × Nat
  ROM_SecureBootAPI : Nat → Mem → Nat → Nat → Nat → Nat × Mem
  hw_engine_lock : Nat → Nat

/-- The four globals of `rcar_maskrom.c`; the two ROM function pointers are
kept as entry addresses. -/
structure Product where
  product_type : Nat
  product_name : String
  ROM_SecureBootAPI : Nat
  ROM_GetLcs : Nat
  deriving DecidableEq

/-- The initialisers of the four globals ("default value : R-Car H3"). -/
def product_default (p : Platform) : Product :=
  { product_type := p.PRR_PRODUCT_H3
    product_name := "H3"
    ROM_SecureBootAPI := ADDR_ROM_SECURE_API_H3 p
    ROM_GetLcs := ADDR_ROM_GETLCS_API_H3 p }

/-- The function `product_setup` of `rcar_maskrom.c`, as a transformer of the
globals. -/
def product_setup (p : Platform) (w : World) (g : Product) : Product :=
  let reg := w.read32 p.PRR
  let type := reg &&& p.PRR_PRODUCT_MASK
  if type = p.PRR_PRODUCT_H3 then
    g
  else if type = p.PRR_PRODUCT_M3 then
    { product_type := p.PRR_PRODUCT_M3
      product_name := "M3"
      ROM_SecureBootAPI := ADDR_ROM_SECURE_API_M3 p
      ROM_GetLcs := ADDR_ROM_GETLCS_API_M3 p }
  else
    { g with
      product_type := type ||| p.PRR_PRODUCT_UNKNOWN
      product_name := "unknown" }

/-- The function `get_PRR_type` of `rcar_maskrom.c`. -/
def get_PRR_type (p : Platform) (w : World) : Nat :=
  let reg := w.read32 p.PRR
  reg &&& p.PRR_PRODUCT_MASK

/-! ## Events -/

/-- The observable steps of an authentication, with their arguments. -/
inductive Event where
  | memcpy (dst src n : Nat)
  | ROM_GetLcs (entry : Nat)
  | read32 (addr : Nat)
  | asm_switch_stack_pointer (sp data : Nat)
  | hw_engine_lock (engine : Nat)
  | ROM_SecureBootAPI (entry key_cert content_cert third : Nat)
  | hw_engine_unlock (hwlock : Nat)
  | store_secmem_ta (value : Nat)
  deriving DecidableEq

def Event.isMemcpy : Event → Bool
  | .memcpy _ _ _ => true
  | _ => false

def Event.isGetLcs : Event → Bool
  | .ROM_GetLcs _ => true
  | _ => false

def Event.isSecureBoot : Event → Bool
  | .ROM_SecureBootAPI _ _ _ _ => true
  | _ => false

def Event.isLock : Event → Bool
  | .hw_engine_lock _ => true
  | _ => false

def Event.isStore : Event → Bool
  | .store_secmem_ta _ => true
  | _ => false

/-- The outcome of a call that may touch memory: returned value, memory left,
events in program order. -/
structure Outcome where
  ret : Nat
  mem : Mem
  trace : List Event

/-! ## Boot-mode decision and ROM invocation -/

/-- The function `get_auth_mode` of `rcar_ta_auth.c`: the mode it returns and
the events of the call. -/
def get_auth_mode (p : Platform) (g : Product) (w : World) : Nat × List Event :=
  let auth_mode := SECURE_BOOT_MODE
  let r := w.ROM_GetLcs g.ROM_GetLcs
  let ret := r.1
  let lcs := r.2
  if ret = 0 then
    if lcs = LCS_SE then
      let softmd := w.read32 (MFIS_SOFTMDR p) &&& 0x00000001
      if softmd = 1 then
        (NORMAL_BOOT_MODE, [Event.ROM_GetLcs g.ROM_GetLcs, Event.read32 (MFIS_SOFTMDR p)])
      else
        (auth_mode, [Event.ROM_GetLcs g.ROM_GetLcs, Event.read32 (MFIS_SOFTMDR p)])
    else
      let md := (w.read32 (RST_MODEMR p) &&& 0x00000020) >>> 5
      if md ≠ 0 then
        (NORMAL_BOOT_MODE, [Event.ROM_GetLcs g.ROM_GetLcs, Event.read32 (RST_MODEMR p)])
      else
        (auth_mode, [Event.ROM_GetLcs g.ROM_GetLcs, Event.read32 (RST_MODEMR p)])
  else
    (auth_mode, [Event.ROM_GetLcs g.ROM_GetLcs])

/-- The function `call_maskrom_api` of `rcar_ta_auth.c`, run on memory `m`. -/
def call_maskrom_api (p : Platform) (g : Product) (w : World) (m : Mem) : Outcome :=
  let key_cert := TA_KEY_CERT_ADDR p
  let content_cert := TA_CONTENT_CERT_ADDR p
  let hwlock := w.hw_engine_lock p.HWENG_SECURE_CORE
  let r := w.ROM_SecureBootAPI g.ROM_SecureBootAPI m key_cert content_cert NULL
  { ret := r.1
    mem := r.2
    trace := [Event.hw_engine_lock p.HWENG_SECURE_CORE,
              Event.ROM_SecureBootAPI g.ROM_SecureBootAPI key_cert content_cert NULL,
              Event.hw_engine_unlock hwlock] }

/-- Modelled from the spec: `asm_switch_stack_pointer` is an assembly routine
that is not among the sources.  The specification describes it as "execute
closure F on alternate stack region R", the caller getting back what F
returns: the routine runs `func` (on the stack whose top is `sp`) and returns
its value. -/
def asm_switch_stack_pointer (func : Mem → Outcome) (sp data : Nat) (m : Mem) : Outcome :=
  let r := func m
  { r with trace := Event.asm_switch_stack_pointer sp data :: r.trace }

/-! ## The authenticator -/

/-- The locals `rcar_auth_ta_certificate` has computed when it reaches the
memory-map comment (lines 174-184). -/
structure CertSizes where
  key_cert_size : Nat
  content_cert : Nat
  content_cert_size : Nat
  object_size : Nat
  deriving DecidableEq

/-- Lines 174-184 of `rcar_auth_ta_certificate`: the sizes read from the
input at `key_cert`, each certificate size replaced by its default when it
exceeds its area. -/
def rcar_auth_ta_certificate_sizes (m : Mem) (key_cert : Nat) : CertSizes :=
  let key_cert_size := get_key_cert_size (as_u32_ptr m key_cert)
  let key_cert_size :=
    if key_cert_size > TA_KEY_CERT_AREA_SIZE then KEY_CERT_DEFAULT_SIZE else key_cert_size
  let content_cert := key_cert + key_cert_size
  let content_cert_size := get_content_cert_size (as_u32_ptr m content_cert)
  let content_cert_size :=
    if content_cert_size > TA_CONTENT_CERT_AREA_SIZE then CONTENT_CERT_DEFAULT_SIZE
    else content_cert_size
  let object_size := get_object_size m content_cert
  { key_cert_size := key_cert_size
    content_cert := content_cert
    content_cert_size := content_cert_size
    object_size := object_size }

/-- Lines 208-216 of `rcar_auth_ta_certificate`: the three `memcpy`s, in
program order, and the memory they leave. -/
def rcar_auth_ta_certificate_copies (p : Platform) (m : Mem) (key_cert : Nat) : Mem :=
  let z := rcar_auth_ta_certificate_sizes m key_cert
  let fixed_base := p.TA_VERIFICATION_BASE
  let fixed_key_cert := TA_KEY_CERT_ADDR p
  let fixed_content_cert := TA_CONTENT_CERT_ADDR p
  let m := memcpy m fixed_base (z.content_cert + z.content_cert_size) z.object_size
  let m := memcpy m fixed_key_cert key_cert z.key_cert_size
  memcpy m fixed_content_cert z.content_cert z.content_cert_size

/-- The events of the three `memcpy`s. -/
def rcar_auth_ta_certificate_copy_events (p : Platform) (m : Mem) (key_cert : Nat) :
    List Event :=
  let z := rcar_auth_ta_certificate_sizes m key_cert
  [Event.memcpy p.TA_VERIFICATION_BASE (z.content_cert + z.content_cert_size) z.object_size,
   Event.memcpy (TA_KEY_CERT_ADDR p) key_cert z.key_cert_size,
   Event.memcpy (TA_CONTENT_CERT_ADDR p) z.content_cert z.content_cert_size]

/-- What a call of `rcar_auth_ta_certificate` leaves: the `TEE_Result`, the
memory, the cell `*secmem_ta` and the events of the call. -/
structure AuthResult where
  res : Nat
  mem : Mem
  secmem_ta : Nat
  trace : List Event

/-- The function `rcar_auth_ta_certificate` of `rcar_ta_auth.c`.  `g` holds
the globals of `rcar_maskrom.c`, `m` is the memory on entry, `key_cert` the
pointer argument and `secmem_ta` the content of `*secmem_ta` on entry. -/
def rcar_auth_ta_certificate (p : Platform) (g : Product) (w : World) (m : Mem)
    (key_cert : Nat) (secmem_ta : Nat) : AuthResult :=
  let res := p.TEE_ERROR_SECURITY
  let fixed_ta := p.TA_VERIFICATION_BASE
  let fixed_base := p.TA_VERIFICATION_BASE
  let fixed_key_cert := TA_KEY_CERT_ADDR p
  let z := rcar_auth_ta_certificate_sizes m key_cert
  if g.product_type &&& p.PRR_PRODUCT_UNKNOWN ≠ 0 then
    { res := res, mem := m, secmem_ta := secmem_ta, trace := [] }
  else if ptr_add p fixed_base z.object_size ≤ fixed_key_cert then
    let m1 := rcar_auth_ta_certificate_copies p m key_cert
    let t1 := rcar_auth_ta_certificate_copy_events p m key_cert
    let a := get_auth_mode p g w
    let auth_mode := a.1
    if auth_mode = SECURE_BOOT_MODE then
      let r := asm_switch_stack_pointer (call_maskrom_api p g w)
        (TA_NONCACHE_STACK_ADDR p) NULL m1
      if r.ret = 0 then
        { res := p.TEE_SUCCESS, mem := r.mem, secmem_ta := fixed_ta,
          trace := t1 ++ a.2 ++ r.trace ++ [Event.store_secmem_ta fixed_ta] }
      else
        { res := res, mem := r.mem, secmem_ta := secmem_ta,
          trace := t1 ++ a.2 ++ r.trace }
    else
      { res := p.TEE_SUCCESS, mem := m1, secmem_ta := fixed_ta,
        trace := t1 ++ a.2 ++ [Event.store_secmem_ta fixed_ta] }
  else
    { res := res, mem := m, secmem_ta := secmem_ta, trace := [] }


/-- The status `ROM_SecureBootAPI` returns to `call_maskrom_api` when
`rcar_auth_ta_certificate` reaches it: the ROM runs on the memory the three
copies leave, with the two slot addresses and `NULL`. -/
def rom_status (p : Platform) (g : Product) (w : World) (m : Mem) (key_cert : Nat) : Nat :=
  (w.ROM_SecureBootAPI g.ROM_SecureBootAPI (rcar_auth_ta_certificate_copies p m key_cert)
    (TA_KEY_CERT_ADDR p) (TA_CONTENT_CERT_ADDR p) NULL).1

/-! ## Lock discipline and memory map -/

def Event.isUnlock : Event → Bool
  | .hw_engine_unlock _ => true
  | _ => false

/-- Whether the hardware-engine lock is held once the events of `t` have
happened, `held` telling whether it was held before them. -/
def lock_held_after (t : List Event) (held : Bool) : Bool :=
  t.foldl
    (fun h e =>
      match e with
      | .hw_engine_lock _ => true
      | .hw_engine_unlock _ => false
      | _ => h)
    held

/-- The first row of the memory-map comment of `rcar_auth_ta_certificate`:
the TA object data area, `TotalSize - [1] - [2] - [3]` bytes from
`TA_VERIFICATION_BASE`. -/
def in_ta_object_area (p : Platform) (a : Nat) : Bool :=
  decide (p.TA_VERIFICATION_BASE ≤ a ∧
    a < p.TA_VERIFICATION_BASE
      + (p.TA_VERIFICATION_SIZE - TA_KEY_CERT_AREA_SIZE - TA_CONTENT_CERT_AREA_SIZE
          - TA_NONCACHE_STACK_AREA_SIZE))

/-- The key certificate area: `TA_KEY_CERT_AREA_SIZE` bytes from
`TA_KEY_CERT_ADDR`. -/
def in_key_cert_area (p : Platform) (a : Nat) : Bool :=
  decide (TA_KEY_CERT_ADDR p ≤ a ∧ a < TA_KEY_CERT_ADDR p + TA_KEY_CERT_AREA_SIZE)

/-- The content certificate area: `TA_CONTENT_CERT_AREA_SIZE` bytes from
`TA_CONTENT_CERT_ADDR`. -/
def in_content_cert_area (p : Platform) (a : Nat) : Bool :=
  decide (TA_CONTENT_CERT_ADDR p ≤ a ∧
    a < TA_CONTENT_CERT_ADDR p + TA_CONTENT_CERT_AREA_SIZE)

/-- The non-cache stack area: the `TA_NONCACHE_STACK_AREA_SIZE` bytes below
`TA_NONCACHE_STACK_ADDR`. -/
def in_noncache_stack_area (p : Platform) (a : Nat) : Bool :=
  decide (TA_NONCACHE_STACK_ADDR p - TA_NONCACHE_STACK_AREA_SIZE ≤ a ∧
    a < TA_NONCACHE_STACK_ADDR p)

/-! ## Concrete instances -/

/-- An example platform: a 64-bit build with a one-megabyte verification
region, the R-Car product codes and the GlobalPlatform result codes. -/
def example_platform : Platform :=
  { ARM32 := false
    TA_VERIFICATION_BASE := 0x44100000
    TA_VERIFICATION_SIZE := 0x100000
    RST_BASE := 0xE6160000
    MFIS_BASE := 0xE6260000
    PRR := 0xFFF00044
    PRR_PRODUCT_MASK := 0x7F00
    PRR_PRODUCT_H3 := 0x4F00
    PRR_PRODUCT_M3 := 0x5200
    PRR_PRODUCT_UNKNOWN := 0x01000000
    HWENG_SECURE_CORE := 0
    TEE_SUCCESS := 0
    TEE_ERROR_SECURITY := 0xFFFF000F }

/-- An example world: every register reads `reg`, `ROM_GetLcs` gives
`(lcs_status, lcs)`, the secure-boot entry gives `rom_status` and leaves
memory as it is, and the lock handle is 1. -/
def example_world (reg lcs_status lcs rom_status : Nat) : World :=
  { read32 := fun _ => reg
    ROM_GetLcs := fun _ => (lcs_status, lcs)
    ROM_SecureBootAPI := fun _ m _ _ _ => (rom_status, m)
    hw_engine_lock := fun _ => 1 }

/-- The example platform built with `ARM32`: 4-byte pointers. -/
def example_platform_arm32 : Platform :=
  { example_platform with ARM32 := true }

/-- The all-zero memory. -/
def zero_mem : Mem := fun _ => 0

/-- A memory whose content certificate at address 0 has an all-zero header
(computed key-certificate size 256) and the block count `0x40000000` in the
word at offset 264. -/
def mem_block_count_2p30 : Mem := fun a => if a = 267 then 0x40 else 0

/-- An example input at address 4096: a key certificate with size field
`0x53` (computed size `0x24C`), followed at 4684 by a content certificate with
the same size field (computed size `0x258`), whose block-count word at offset
`0x24C + 8` has low byte 2 and high byte `hi`, followed at 5284 by the
object. -/
def example_blob (hi : Nat) : Mem :=
  fun a =>
    if a = 4104 then 0x53
    else if a = 4692 then 0x53
    else if a = 5280 then 2
    else if a = 5283 then hi
    else if 5284 ≤ a ∧ a < 5292 then 0xAA
    else 0

/-- The example input with block count `0x30000002` (an object size of
`0xC0000008`) and, `0xFF000` bytes into the object, the byte `0xBB`. -/
def arm32_wrap_blob : Mem :=
  fun a => if a = 5284 + 0xFF000 then 0xBB else example_blob 0x30 a

/-- A memory whose key certificate at address 0 has an all-zero header
(size 256) and whose content certificate at 256 has size field `0x400`
(computed key size `0x1100`, computed content size `0x110C`, above 4096). -/
def oversize_cert_mem : Mem := fun a => if a = 265 then 0x04 else 0

/-! ## Arithmetic of the parser -/

theorem flag_bits (x : Nat) : (x &&& 0x00600000) >>> 21 = (x / 2 ^ 21) % 4 := by
  apply Nat.eq_of_testBit_eq
  intro i
  have h4 : (4 : Nat) = 2 ^ 2 := by norm_num
  have hc : (0x00600000 : Nat) = (2 ^ 2 - 1) <<< 21 := by decide
  rw [h4, Nat.testBit_mod_two_pow, Nat.testBit_shiftRight, Nat.testBit_and, hc,
    Nat.testBit_shiftLeft, Nat.testBit_two_pow_sub_one, ← Nat.shiftRight_eq_div_pow,
    Nat.testBit_shiftRight]
  by_cases h : i < 2 <;> simp [h]

theorem spec_sig_ext_cases (f : Nat) :
    ((f / 2 ^ 21) % 4 = 0 ∧ spec_sig_ext f = 256) ∨
    ((f / 2 ^ 21) % 4 = 1 ∧ spec_sig_ext f = 384) ∨
    ((f / 2 ^ 21) % 4 = 2 ∧ spec_sig_ext f = 512) ∨
    ((f / 2 ^ 21) % 4 = 3 ∧ spec_sig_ext f = 256) := by
  have hlt : (f / 2 ^ 21) % 4 < 4 := Nat.mod_lt _ (by norm_num)
  unfold spec_sig_ext
  generalize (f / 2 ^ 21) % 4 = c at hlt ⊢
  interval_cases c <;> simp

theorem get_key_cert_size_eq (h : Nat → Nat) :
    get_key_cert_size h = (h 2 &&& 0xffff) * 4 + spec_sig_ext (h 3) := by
  have hb : h 2 &&& 0xffff ≤ 0xffff := Nat.and_le_right
  unfold get_key_cert_size
  simp only [CERT_IDX_SIZE, CERT_IDX_FLAG, CERT_OFS_BIT_SIZE, CERT_BLOCK_SIZE,
    CERT_SIGNATURE_SIZE, flag_bits]
  rcases spec_sig_ext_cases (h 3) with ⟨hc, hs⟩ | ⟨hc, hs⟩ | ⟨hc, hs⟩ | ⟨hc, hs⟩ <;>
    rw [hc, hs] <;> norm_num <;> omega

theorem get_key_cert_size_le (h : Nat → Nat) : get_key_cert_size h ≤ 262652 := by
  have hb : h 2 &&& 0xffff ≤ 0xffff := Nat.and_le_right
  have hk := get_key_cert_size_eq h
  rcases spec_sig_ext_cases (h 3) with ⟨_, hs⟩ | ⟨_, hs⟩ | ⟨_, hs⟩ | ⟨_, hs⟩ <;> omega

theorem get_content_cert_size_eq (h : Nat → Nat) :
    get_content_cert_size h = get_key_cert_size h + 12 := by
  have hk := get_key_cert_size_le h
  unfold get_content_cert_size
  simp only [CERT_ADD_DATA_SIZE, CERT_STORE_ADDR_SIZE, CERT_REC_LEN_SIZE]
  omega

theorem load32_lt (m : Mem) (a : Nat) : load32 m a < 2 ^ 32 := by
  unfold load32
  omega

theorem get_object_size_eq (m : Mem) (c : Nat) :
    get_object_size m c
      = (4 * load32 m (c + (get_key_cert_size (as_u32_ptr m c) + 8))) % 2 ^ 32 := by
  have hk := get_key_cert_size_le (as_u32_ptr m c)
  unfold get_object_size
  simp only [CERT_STORE_ADDR_SIZE, CERT_BLOCK_SIZE]
  rw [Nat.mod_eq_of_lt (by omega : get_key_cert_size (as_u32_ptr m c) + 8 < 2 ^ 32),
    Nat.mul_comm]

/-! ## The certificate parser -/

/-- C6: for every header `h`, `get_key_cert_size h` is
`(h[2] & 0xFFFF) * 4 + sig_ext(h[3])` as a sum of integers (no 32-bit wrap:
the value is at most `0xFFFF * 4 + 512`), where `sig_ext` is the
specification's function of bits [22:21] of `h[3]`; codes 0, 1, 2, 3 add
256, 384, 512, 256; words `h[0]` and `h[1]` have no influence (two headers
that agree on the low 16 bits of word 2 and on bits [22:21] of word 3 give the
same size); a size field of `0x93` with code 2 gives `0x93 * 4 + 512`. -/
theorem get_key_cert_size_formula (h : Nat → Nat) :
    get_key_cert_size h = (h 2 &&& 0xFFFF) * 4 + spec_sig_ext (h 3) ∧
    (h 2 &&& 0xFFFF) * 4 + spec_sig_ext (h 3) ≤ 0xFFFF * 4 + 512 ∧
    ((h 3 / 2 ^ 21) % 4 = 0 → get_key_cert_size h = (h 2 &&& 0xFFFF) * 4 + 256) ∧
    ((h 3 / 2 ^ 21) % 4 = 1 → get_key_cert_size h = (h 2 &&& 0xFFFF) * 4 + 384) ∧
    ((h 3 / 2 ^ 21) % 4 = 2 → get_key_cert_size h = (h 2 &&& 0xFFFF) * 4 + 512) ∧
    ((h 3 / 2 ^ 21) % 4 = 3 → get_key_cert_size h = (h 2 &&& 0xFFFF) * 4 + 256) ∧
    (∀ magic ver : Nat,
      get_key_cert_size (Function.update (Function.update h 0 magic) 1 ver)
        = get_key_cert_size h) ∧
    (∀ k : Nat → Nat, k 2 &&& 0xFFFF = h 2 &&& 0xFFFF →
      (k 3 / 2 ^ 21) % 4 = (h 3 / 2 ^ 21) % 4 →
      get_key_cert_size k = get_key_cert_size h) ∧
    (h 2 &&& 0xFFFF = 0x93 → (h 3 / 2 ^ 21) % 4 = 2 →
      get_key_cert_size h = 0x93 * 4 + 512) := by
  have hk := get_key_cert_size_eq h
  have hl := get_key_cert_size_le h
  have hs := spec_sig_ext_cases (h 3)
  refine ⟨hk, by omega, ?_, ?_, ?_, ?_, ?_, ?_, ?_⟩
  · intro hc; omega
  · intro hc; omega
  · intro hc; omega
  · intro hc; omega
  · intro magic ver
    rw [get_key_cert_size_eq, hk]
    simp [Function.update]
  · intro k h2 h3
    rw [get_key_cert_size_eq, hk, h2]
    unfold spec_sig_ext
    rw [h3]
  · intro h2 hc; omega

/-- C6 applied to a header with size field `0x93` and flag bits [22:21] = 2. -/
theorem get_key_cert_size_formula_witness :
    get_key_cert_size (fun i => if i = 2 then 0x93 else if i = 3 then 0x400000 else 0)
      = 0x93 * 4 + 512 :=
  (get_key_cert_size_formula
    (fun i => if i = 2 then 0x93 else if i = 3 then 0x400000 else 0)).2.2.2.2.2.2.2.2
    (by decide) (by decide)

/-- C9: for every header `h`, `get_key_cert_size h` is a multiple of 4 and
`get_content_cert_size h` exceeds it by exactly 12, as integers. -/
theorem cert_size_multiple_and_gap (h : Nat → Nat) :
    get_key_cert_size h % 4 = 0 ∧
    (get_content_cert_size h : Int) - (get_key_cert_size h : Int) = 12 := by
  have hk := get_key_cert_size_eq h
  have hc := get_content_cert_size_eq h
  have hs := spec_sig_ext_cases (h 3)
  constructor
  · omega
  · omega

/-- C8, as stated, fails: with the block count `0x40000000` stored in the
word at offset `get_key_cert_size(content header) + 8`, `get_object_size`
returns 0, not four times the block count. -/
theorem get_object_size_not_exact :
    load32 mem_block_count_2p30
        (0 + (get_key_cert_size (as_u32_ptr mem_block_count_2p30 0) + 8)) = 0x40000000 ∧
    get_object_size mem_block_count_2p30 0 = 0 ∧
    get_object_size mem_block_count_2p30 0
      ≠ 4 * load32 mem_block_count_2p30
          (0 + (get_key_cert_size (as_u32_ptr mem_block_count_2p30 0) + 8)) := by
  decide

/-- C8, amended: `get_object_size` reads the little-endian 32-bit word at
byte offset `get_key_cert_size(content header) + 8` of the content
certificate and returns four times that block count reduced modulo `2 ^ 32`;
the result is exactly four times the block count if and only if the block
count is below `2 ^ 30`. -/
theorem get_object_size_mod (m : Mem) (content_cert : Nat) :
    load32 m (content_cert + (get_key_cert_size (as_u32_ptr m content_cert) + 8)) < 2 ^ 32 ∧
    get_object_size m content_cert
      = (4 * load32 m (content_cert + (get_key_cert_size (as_u32_ptr m content_cert) + 8)))
          % 2 ^ 32 ∧
    (get_object_size m content_cert
        = 4 * load32 m (content_cert + (get_key_cert_size (as_u32_ptr m content_cert) + 8))
      ↔ load32 m (content_cert + (get_key_cert_size (as_u32_ptr m content_cert) + 8))
          < 2 ^ 30) := by
  have ho := get_object_size_eq m content_cert
  have hl := load32_lt m (content_cert + (get_key_cert_size (as_u32_ptr m content_cert) + 8))
  refine ⟨hl, ho, ?_⟩
  omega


theorem replaced_iff (x d : Nat) (hd : d ≤ 4096) :
    (if x > 4096 then d else x) ≠ x ↔ x > 4096 := by
  split_ifs with h
  · constructor
    · intro _; exact h
    · intro _; omega
  · simp [h]

/-- C7: the effective key-certificate size is `KEY_CERT_DEFAULT_SIZE`
(`0x24C`) when the computed size is above 4096 and the computed size
otherwise, so it differs from the computed size exactly when that is above
4096 (4096 itself is kept); the content certificate is located at
`key_cert` plus the effective key-certificate size; the effective
content-certificate size is `CONTENT_CERT_DEFAULT_SIZE` (`0x268`) when the
computed size is above 4096 and the computed size otherwise. -/
theorem rcar_auth_effective_sizes (m : Mem) (key_cert : Nat) :
    (rcar_auth_ta_certificate_sizes m key_cert).key_cert_size
      = (if get_key_cert_size (as_u32_ptr m key_cert) > 4096 then 0x24C
         else get_key_cert_size (as_u32_ptr m key_cert)) ∧
    ((rcar_auth_ta_certificate_sizes m key_cert).key_cert_size
        ≠ get_key_cert_size (as_u32_ptr m key_cert)
      ↔ get_key_cert_size (as_u32_ptr m key_cert) > 4096) ∧
    (rcar_auth_ta_certificate_sizes m key_cert).content_cert
      = key_cert + (rcar_auth_ta_certificate_sizes m key_cert).key_cert_size ∧
    (rcar_auth_ta_certificate_sizes m key_cert).content_cert_size
      = (if get_content_cert_size
              (as_u32_ptr m (rcar_auth_ta_certificate_sizes m key_cert).content_cert) > 4096
         then 0x268
         else get_content_cert_size
              (as_u32_ptr m (rcar_auth_ta_certificate_sizes m key_cert).content_cert)) ∧
    ((rcar_auth_ta_certificate_sizes m key_cert).content_cert_size
        ≠ get_content_cert_size
            (as_u32_ptr m (rcar_auth_ta_certificate_sizes m key_cert).content_cert)
      ↔ get_content_cert_size
            (as_u32_ptr m (rcar_auth_ta_certificate_sizes m key_cert).content_cert) > 4096) ∧
    (rcar_auth_ta_certificate_sizes m key_cert).object_size
      = get_object_size m (rcar_auth_ta_certificate_sizes m key_cert).content_cert := by
  refine ⟨rfl, ?_, rfl, rfl, ?_, rfl⟩
  · exact replaced_iff _ _ (by decide)
  · exact replaced_iff _ _ (by decide)

/-- C10: when `ROM_GetLcs` returns a non-zero status, `get_auth_mode` returns
`SECURE_BOOT_MODE` (and reads no register), whatever is left in `lcs` and
whatever the registers hold. -/
theorem get_auth_mode_lcs_failure (p : Platform) (g : Product) (w : World)
    (hret : (w.ROM_GetLcs g.ROM_GetLcs).1 ≠ 0) :
    (get_auth_mode p g w).1 = SECURE_BOOT_MODE ∧
    (get_auth_mode p g w).2 = [Event.ROM_GetLcs g.ROM_GetLcs] := by
  simp [get_auth_mode, hret]

/-- C10 at a failing `ROM_GetLcs` (status 1) that leaves `lcs = 5` with both
mode bits set in the registers. -/
theorem get_auth_mode_lcs_failure_witness :
    (get_auth_mode example_platform (product_default example_platform)
        (example_world 0x21 1 5 0)).1 = SECURE_BOOT_MODE ∧
    (get_auth_mode example_platform (product_default example_platform)
        (example_world 0x21 1 5 0)).2
      = [Event.ROM_GetLcs (product_default example_platform).ROM_GetLcs] :=
  get_auth_mode_lcs_failure example_platform (product_default example_platform)
    (example_world 0x21 1 5 0) (by decide)

/-! ## The authenticator -/

theorem get_auth_mode_events (p : Platform) (g : Product) (w : World) :
    (get_auth_mode p g w).2.filter Event.isSecureBoot = [] ∧
    (get_auth_mode p g w).2.filter Event.isLock = [] ∧
    (get_auth_mode p g w).2.filter Event.isStore = [] ∧
    (get_auth_mode p g w).2.filter Event.isMemcpy = [] := by
  unfold get_auth_mode
  simp only []
  split_ifs <;> simp [Event.isSecureBoot, Event.isLock, Event.isStore, Event.isMemcpy]

theorem get_auth_mode_range (p : Platform) (g : Product) (w : World) :
    (get_auth_mode p g w).1 = SECURE_BOOT_MODE ∨
    (get_auth_mode p g w).1 = NORMAL_BOOT_MODE := by
  unfold get_auth_mode
  simp only []
  split_ifs <;> simp

theorem copy_events_filter (p : Platform) (m : Mem) (key_cert : Nat) :
    (rcar_auth_ta_certificate_copy_events p m key_cert).filter Event.isSecureBoot = [] ∧
    (rcar_auth_ta_certificate_copy_events p m key_cert).filter Event.isLock = [] ∧
    (rcar_auth_ta_certificate_copy_events p m key_cert).filter Event.isStore = [] := by
  simp [rcar_auth_ta_certificate_copy_events, Event.isSecureBoot, Event.isLock, Event.isStore]

theorem ptr_add_le_sum (p : Platform) (ptr n : Nat) : ptr_add p ptr n ≤ ptr + n := by
  unfold ptr_add
  exact Nat.mod_le _ _

theorem ptr_add_le_of_fit (p : Platform) (ptr n k : Nat) (h : ptr + n ≤ k) :
    ptr_add p ptr n ≤ k :=
  Nat.le_trans (ptr_add_le_sum p ptr n) h

theorem ptr_add_eq_sum (p : Platform) (ptr n : Nat) (h : ptr + n < 2 ^ ptr_bits p) :
    ptr_add p ptr n = ptr + n := by
  unfold ptr_add
  exact Nat.mod_eq_of_lt h

/-- The secure path of `rcar_auth_ta_certificate` in full: product known,
object fitting, `SECURE_BOOT_MODE`. -/
theorem rcar_auth_secure_path (p : Platform) (g : Product) (w : World) (m : Mem)
    (key_cert secmem_ta : Nat)
    (hknown : g.product_type &&& p.PRR_PRODUCT_UNKNOWN = 0)
    (hchk : ptr_add p p.TA_VERIFICATION_BASE
        (rcar_auth_ta_certificate_sizes m key_cert).object_size ≤ TA_KEY_CERT_ADDR p)
    (hmode : (get_auth_mode p g w).1 = SECURE_BOOT_MODE) :
    rcar_auth_ta_certificate p g w m key_cert secmem_ta
      = (if (w.ROM_SecureBootAPI g.ROM_SecureBootAPI
              (rcar_auth_ta_certificate_copies p m key_cert)
              (TA_KEY_CERT_ADDR p) (TA_CONTENT_CERT_ADDR p) NULL).1 = 0 then
          { res := p.TEE_SUCCESS
            mem := (w.ROM_SecureBootAPI g.ROM_SecureBootAPI
              (rcar_auth_ta_certificate_copies p m key_cert)
              (TA_KEY_CERT_ADDR p) (TA_CONTENT_CERT_ADDR p) NULL).2
            secmem_ta := p.TA_VERIFICATION_BASE
            trace := rcar_auth_ta_certificate_copy_events p m key_cert
              ++ (get_auth_mode p g w).2
              ++ [Event.asm_switch_stack_pointer (TA_NONCACHE_STACK_ADDR p) NULL,
                  Event.hw_engine_lock p.HWENG_SECURE_CORE,
                  Event.ROM_SecureBootAPI g.ROM_SecureBootAPI (TA_KEY_CERT_ADDR p)
                    (TA_CONTENT_CERT_ADDR p) NULL,
                  Event.hw_engine_unlock (w.hw_engine_lock p.HWENG_SECURE_CORE)]
              ++ [Event.store_secmem_ta p.TA_VERIFICATION_BASE] }
        else
          { res := p.TEE_ERROR_SECURITY
            mem := (w.ROM_SecureBootAPI g.ROM_SecureBootAPI
              (rcar_auth_ta_certificate_copies p m key_cert)
              (TA_KEY_CERT_ADDR p) (TA_CONTENT_CERT_ADDR p) NULL).2
            secmem_ta := secmem_ta
            trace := rcar_auth_ta_certificate_copy_events p m key_cert
              ++ (get_auth_mode p g w).2
              ++ [Event.asm_switch_stack_pointer (TA_NONCACHE_STACK_ADDR p) NULL,
                  Event.hw_engine_lock p.HWENG_SECURE_CORE,
                  Event.ROM_SecureBootAPI g.ROM_SecureBootAPI (TA_KEY_CERT_ADDR p)
                    (TA_CONTENT_CERT_ADDR p) NULL,
                  Event.hw_engine_unlock (w.hw_engine_lock p.HWENG_SECURE_CORE)] }) := by
  unfold rcar_auth_ta_certificate
  simp only [hknown, hchk, hmode, ne_eq, not_true_eq_false, if_false, if_true,
    asm_switch_stack_pointer, call_maskrom_api]

theorem rcar_auth_normal_path (p : Platform) (g : Product) (w : World) (m : Mem)
    (key_cert secmem_ta : Nat)
    (hknown : g.product_type &&& p.PRR_PRODUCT_UNKNOWN = 0)
    (hchk : ptr_add p p.TA_VERIFICATION_BASE
        (rcar_auth_ta_certificate_sizes m key_cert).object_size ≤ TA_KEY_CERT_ADDR p)
    (hmode : (get_auth_mode p g w).1 ≠ SECURE_BOOT_MODE) :
    rcar_auth_ta_certificate p g w m key_cert secmem_ta
      = { res := p.TEE_SUCCESS
          mem := rcar_auth_ta_certificate_copies p m key_cert
          secmem_ta := p.TA_VERIFICATION_BASE
          trace := rcar_auth_ta_certificate_copy_events p m key_cert
            ++ (get_auth_mode p g w).2
            ++ [Event.store_secmem_ta p.TA_VERIFICATION_BASE] } := by
  unfold rcar_auth_ta_certificate
  simp only [hknown, hchk, hmode, ne_eq, not_true_eq_false, if_false, if_true]

theorem rcar_auth_refused (p : Platform) (g : Product) (w : World) (m : Mem)
    (key_cert secmem_ta : Nat)
    (h : g.product_type &&& p.PRR_PRODUCT_UNKNOWN ≠ 0 ∨
      ¬ ptr_add p p.TA_VERIFICATION_BASE
          (rcar_auth_ta_certificate_sizes m key_cert).object_size ≤ TA_KEY_CERT_ADDR p) :
    rcar_auth_ta_certificate p g w m key_cert secmem_ta
      = { res := p.TEE_ERROR_SECURITY, mem := m, secmem_ta := secmem_ta, trace := [] } := by
  unfold rcar_auth_ta_certificate
  by_cases h1 : g.product_type &&& p.PRR_PRODUCT_UNKNOWN ≠ 0
  · simp only []
    rw [if_pos h1]
  · have h2 : ¬ ptr_add p p.TA_VERIFICATION_BASE
        (rcar_auth_ta_certificate_sizes m key_cert).object_size ≤ TA_KEY_CERT_ADDR p := by
      rcases h with h | h
      · exact absurd h h1
      · exact h
    simp only []
    rw [if_neg h1, if_neg h2]

theorem or_and_self_flag (x u : Nat) : (x ||| u) &&& u = u := by
  apply Nat.eq_of_testBit_eq
  intro i
  rw [Nat.testBit_and, Nat.testBit_or]
  cases x.testBit i <;> cases u.testBit i <;> rfl

/-- C1: with the product known, the object fitting below the key-certificate
slot and `get_auth_mode` giving `SECURE_BOOT_MODE`, the trace of
`rcar_auth_ta_certificate` holds exactly one ROM secure-boot call, with
arguments `(TA_KEY_CERT_ADDR, TA_CONTENT_CERT_ADDR, NULL)`; the result is
`TEE_SUCCESS` if and only if the ROM status is 0; for a non-zero status the
result is `TEE_ERROR_SECURITY` and `*secmem_ta` is not written. -/
theorem rcar_auth_secure_mode (p : Platform) (g : Product) (w : World) (m : Mem)
    (key_cert secmem_ta : Nat)
    (hres : p.TEE_SUCCESS ≠ p.TEE_ERROR_SECURITY)
    (hknown : g.product_type &&& p.PRR_PRODUCT_UNKNOWN = 0)
    (hfit : p.TA_VERIFICATION_BASE + (rcar_auth_ta_certificate_sizes m key_cert).object_size
      ≤ TA_KEY_CERT_ADDR p)
    (hmode : (get_auth_mode p g w).1 = SECURE_BOOT_MODE) :
    (rcar_auth_ta_certificate p g w m key_cert secmem_ta).trace.filter Event.isSecureBoot
      = [Event.ROM_SecureBootAPI g.ROM_SecureBootAPI (TA_KEY_CERT_ADDR p)
          (TA_CONTENT_CERT_ADDR p) NULL] ∧
    ((rcar_auth_ta_certificate p g w m key_cert secmem_ta).res = p.TEE_SUCCESS
      ↔ rom_status p g w m key_cert = 0) ∧
    (rom_status p g w m key_cert ≠ 0 →
      (rcar_auth_ta_certificate p g w m key_cert secmem_ta).res = p.TEE_ERROR_SECURITY ∧
      (rcar_auth_ta_certificate p g w m key_cert secmem_ta).secmem_ta = secmem_ta ∧
      (rcar_auth_ta_certificate p g w m key_cert secmem_ta).trace.filter Event.isStore
        = []) := by
  have hp := rcar_auth_secure_path p g w m key_cert secmem_ta hknown
    (ptr_add_le_of_fit p _ _ _ hfit) hmode
  have ha := get_auth_mode_events p g w
  have hc := copy_events_filter p m key_cert
  rw [hp]
  unfold rom_status
  by_cases hs : (w.ROM_SecureBootAPI g.ROM_SecureBootAPI
      (rcar_auth_ta_certificate_copies p m key_cert)
      (TA_KEY_CERT_ADDR p) (TA_CONTENT_CERT_ADDR p) NULL).1 = 0
  · rw [if_pos hs]
    refine ⟨?_, ?_, ?_⟩
    · simp [List.filter_append, ha.1, hc.1, Event.isSecureBoot]
    · simp [hs]
    · intro hne; exact absurd hs hne
  · rw [if_neg hs]
    refine ⟨?_, ?_, ?_⟩
    · simp [List.filter_append, ha.1, hc.1, Event.isSecureBoot]
    · simp [hs, Ne.symm hres]
    · intro _
      refine ⟨rfl, rfl, ?_⟩
      simp [List.filter_append, ha.2.2.1, hc.2.2, Event.isStore]

/-- C2: with the product known, the object fitting below the key-certificate
slot and `get_auth_mode` giving `NORMAL_BOOT_MODE`, `rcar_auth_ta_certificate`
returns `TEE_SUCCESS` and stores `TA_VERIFICATION_BASE` through `secmem_ta`;
its trace holds no ROM secure-boot call and no hardware-engine lock, whatever
the input memory holds. -/
theorem rcar_auth_normal_mode (p : Platform) (g : Product) (w : World) (m : Mem)
    (key_cert secmem_ta : Nat)
    (hknown : g.product_type &&& p.PRR_PRODUCT_UNKNOWN = 0)
    (hfit : p.TA_VERIFICATION_BASE + (rcar_auth_ta_certificate_sizes m key_cert).object_size
      ≤ TA_KEY_CERT_ADDR p)
    (hmode : (get_auth_mode p g w).1 = NORMAL_BOOT_MODE) :
    (rcar_auth_ta_certificate p g w m key_cert secmem_ta).res = p.TEE_SUCCESS ∧
    (rcar_auth_ta_certificate p g w m key_cert secmem_ta).secmem_ta
      = p.TA_VERIFICATION_BASE ∧
    (rcar_auth_ta_certificate p g w m key_cert secmem_ta).trace.filter Event.isStore
      = [Event.store_secmem_ta p.TA_VERIFICATION_BASE] ∧
    (rcar_auth_ta_certificate p g w m key_cert secmem_ta).trace.filter Event.isSecureBoot
      = [] ∧
    (rcar_auth_ta_certificate p g w m key_cert secmem_ta).trace.filter Event.isLock
      = [] := by
  have hne : (get_auth_mode p g w).1 ≠ SECURE_BOOT_MODE := by
    rw [hmode]; decide
  have hp := rcar_auth_normal_path p g w m key_cert secmem_ta hknown
    (ptr_add_le_of_fit p _ _ _ hfit) hne
  have ha := get_auth_mode_events p g w
  have hc := copy_events_filter p m key_cert
  rw [hp]
  refine ⟨rfl, rfl, ?_, ?_, ?_⟩
  · simp [List.filter_append, ha.2.2.1, hc.2.2, Event.isStore]
  · simp [List.filter_append, ha.1, hc.1, Event.isSecureBoot]
  · simp [List.filter_append, ha.2.1, hc.2.1, Event.isLock]

/-- C3: when `product_type` has the `PRR_PRODUCT_UNKNOWN` flag set,
`rcar_auth_ta_certificate` returns `TEE_ERROR_SECURITY`, leaves memory and
`*secmem_ta` as they were and has an empty trace (no copy, no `ROM_GetLcs`,
no `ROM_SecureBootAPI`, no store), for every input; and `product_setup`
leaves that flag set for every product code other than H3 and M3 (the flag
being a non-zero constant). -/
theorem rcar_auth_unknown_product (p : Platform) (g : Product) (w : World) (m : Mem)
    (key_cert secmem_ta : Nat) :
    (g.product_type &&& p.PRR_PRODUCT_UNKNOWN ≠ 0 →
      (rcar_auth_ta_certificate p g w m key_cert secmem_ta).res = p.TEE_ERROR_SECURITY ∧
      (rcar_auth_ta_certificate p g w m key_cert secmem_ta).mem = m ∧
      (rcar_auth_ta_certificate p g w m key_cert secmem_ta).secmem_ta = secmem_ta ∧
      (rcar_auth_ta_certificate p g w m key_cert secmem_ta).trace = []) ∧
    (p.PRR_PRODUCT_UNKNOWN ≠ 0 →
      w.read32 p.PRR &&& p.PRR_PRODUCT_MASK ≠ p.PRR_PRODUCT_H3 →
      w.read32 p.PRR &&& p.PRR_PRODUCT_MASK ≠ p.PRR_PRODUCT_M3 →
      (product_setup p w g).product_type &&& p.PRR_PRODUCT_UNKNOWN ≠ 0) := by
  constructor
  · intro hunk
    rw [rcar_auth_refused p g w m key_cert secmem_ta (Or.inl hunk)]
    exact ⟨rfl, rfl, rfl, rfl⟩
  · intro hu h3 m3
    unfold product_setup
    simp only []
    rw [if_neg h3, if_neg m3]
    simp only []
    rw [or_and_self_flag]
    exact hu

/-- When `TA_VERIFICATION_BASE + object_size` exceeds `TA_KEY_CERT_ADDR` and
does not leave the address space, `rcar_auth_ta_certificate` returns
`TEE_ERROR_SECURITY`, the memory after the call is the memory before it,
`*secmem_ta` is not written and the trace is empty (no `memcpy` ran). -/
theorem layout_overflow_refused_without_wrap (p : Platform) (g : Product) (w : World)
    (m : Mem) (key_cert secmem_ta : Nat)
    (hnowrap : p.TA_VERIFICATION_BASE
        + (rcar_auth_ta_certificate_sizes m key_cert).object_size < 2 ^ ptr_bits p)
    (hover : p.TA_VERIFICATION_BASE + (rcar_auth_ta_certificate_sizes m key_cert).object_size
      > TA_KEY_CERT_ADDR p) :
    (rcar_auth_ta_certificate p g w m key_cert secmem_ta).res = p.TEE_ERROR_SECURITY ∧
    (rcar_auth_ta_certificate p g w m key_cert secmem_ta).mem = m ∧
    (rcar_auth_ta_certificate p g w m key_cert secmem_ta).secmem_ta = secmem_ta ∧
    (rcar_auth_ta_certificate p g w m key_cert secmem_ta).trace = [] := by
  have hr : ¬ ptr_add p p.TA_VERIFICATION_BASE
      (rcar_auth_ta_certificate_sizes m key_cert).object_size ≤ TA_KEY_CERT_ADDR p := by
    rw [ptr_add_eq_sum p _ _ hnowrap]
    omega
  rw [rcar_auth_refused p g w m key_cert secmem_ta (Or.inr hr)]
  exact ⟨rfl, rfl, rfl, rfl⟩

/-- With 8-byte pointers and a verification base below `2 ^ 64 - 2 ^ 32` no
object size makes the pointer sum leave the address space: every object with
`TA_VERIFICATION_BASE + object_size > TA_KEY_CERT_ADDR` is refused with
memory untouched. -/
theorem layout_overflow_refused_64bit (p : Platform) (g : Product) (w : World)
    (m : Mem) (key_cert secmem_ta : Nat)
    (h64 : p.ARM32 = false)
    (hbase : p.TA_VERIFICATION_BASE + 2 ^ 32 ≤ 2 ^ 64)
    (hover : p.TA_VERIFICATION_BASE + (rcar_auth_ta_certificate_sizes m key_cert).object_size
      > TA_KEY_CERT_ADDR p) :
    (rcar_auth_ta_certificate p g w m key_cert secmem_ta).res = p.TEE_ERROR_SECURITY ∧
    (rcar_auth_ta_certificate p g w m key_cert secmem_ta).mem = m ∧
    (rcar_auth_ta_certificate p g w m key_cert secmem_ta).secmem_ta = secmem_ta ∧
    (rcar_auth_ta_certificate p g w m key_cert secmem_ta).trace = [] := by
  have hos : (rcar_auth_ta_certificate_sizes m key_cert).object_size < 2 ^ 32 := by
    have h : (rcar_auth_ta_certificate_sizes m key_cert).object_size
        = get_object_size m (rcar_auth_ta_certificate_sizes m key_cert).content_cert := rfl
    rw [h, get_object_size_eq]
    exact Nat.mod_lt _ (by norm_num)
  have hb : ptr_bits p = 64 := by simp [ptr_bits, h64]
  exact layout_overflow_refused_without_wrap p g w m key_cert secmem_ta
    (by rw [hb]; omega) hover

/-- C4 fails on the 32-bit build.  On the example platform built with `ARM32`
and the input with block count `0x30000002`: `object_size` is `0xC0000008`,
`TA_VERIFICATION_BASE + object_size` exceeds `TA_KEY_CERT_ADDR`, but the
4-byte pointer sum is `0x04100008`, so the layout check passes: in normal
mode `rcar_auth_ta_certificate` returns `TEE_SUCCESS`, stores through
`secmem_ta`, and runs the three `memcpy`s, the first of `0xC0000008` bytes
from `TA_VERIFICATION_BASE`; the first byte of the object area, 0 before the
call, is `0xAA` after it and the first byte of the stack area, 0 before, is
`0xBB` after it. -/
theorem rcar_auth_layout_overflow_arm32 :
    (rcar_auth_ta_certificate_sizes arm32_wrap_blob 4096).object_size = 0xC0000008 ∧
    example_platform_arm32.TA_VERIFICATION_BASE
        + (rcar_auth_ta_certificate_sizes arm32_wrap_blob 4096).object_size
      > TA_KEY_CERT_ADDR example_platform_arm32 ∧
    ptr_add example_platform_arm32 example_platform_arm32.TA_VERIFICATION_BASE
        (rcar_auth_ta_certificate_sizes arm32_wrap_blob 4096).object_size = 0x04100008 ∧
    (rcar_auth_ta_certificate example_platform_arm32
        (product_default example_platform_arm32) (example_world 1 0 5 0)
        arm32_wrap_blob 4096 7).res = example_platform_arm32.TEE_SUCCESS ∧
    (rcar_auth_ta_certificate example_platform_arm32
        (product_default example_platform_arm32) (example_world 1 0 5 0)
        arm32_wrap_blob 4096 7).secmem_ta = 0x44100000 ∧
    (rcar_auth_ta_certificate example_platform_arm32
        (product_default example_platform_arm32) (example_world 1 0 5 0)
        arm32_wrap_blob 4096 7).trace.filter Event.isMemcpy
      = [Event.memcpy 0x44100000 5284 0xC0000008,
         Event.memcpy 0x441FD000 4096 588,
         Event.memcpy 0x441FE000 4684 600] ∧
    arm32_wrap_blob 0x44100000 = 0 ∧
    (rcar_auth_ta_certificate example_platform_arm32
        (product_default example_platform_arm32) (example_world 1 0 5 0)
        arm32_wrap_blob 4096 7).mem 0x44100000 = 0xAA ∧
    arm32_wrap_blob 0x441FF000 = 0 ∧
    (rcar_auth_ta_certificate example_platform_arm32
        (product_default example_platform_arm32) (example_world 1 0 5 0)
        arm32_wrap_blob 4096 7).mem 0x441FF000 = 0xBB := by
  decide

/-- C5: `rcar_auth_ta_certificate` returns `TEE_SUCCESS` or
`TEE_ERROR_SECURITY`, for every input, ROM and register behaviour; when it
returns `TEE_SUCCESS` it has stored through `secmem_ta` exactly once, the
value `TA_VERIFICATION_BASE`; when it returns anything else it has not stored
through `secmem_ta`; no other value is ever stored. -/
theorem rcar_auth_result_and_store (p : Platform) (g : Product) (w : World) (m : Mem)
    (key_cert secmem_ta : Nat)
    (hres : p.TEE_SUCCESS ≠ p.TEE_ERROR_SECURITY) :
    ((rcar_auth_ta_certificate p g w m key_cert secmem_ta).res = p.TEE_SUCCESS ∨
      (rcar_auth_ta_certificate p g w m key_cert secmem_ta).res = p.TEE_ERROR_SECURITY) ∧
    ((rcar_auth_ta_certificate p g w m key_cert secmem_ta).res = p.TEE_SUCCESS →
      (rcar_auth_ta_certificate p g w m key_cert secmem_ta).trace.filter Event.isStore
        = [Event.store_secmem_ta p.TA_VERIFICATION_BASE] ∧
      (rcar_auth_ta_certificate p g w m key_cert secmem_ta).secmem_ta
        = p.TA_VERIFICATION_BASE) ∧
    ((rcar_auth_ta_certificate p g w m key_cert secmem_ta).res ≠ p.TEE_SUCCESS →
      (rcar_auth_ta_certificate p g w m key_cert secmem_ta).trace.filter Event.isStore = [] ∧
      (rcar_auth_ta_certificate p g w m key_cert secmem_ta).secmem_ta = secmem_ta) ∧
    (∀ v : Nat,
      Event.store_secmem_ta v ∈ (rcar_auth_ta_certificate p g w m key_cert secmem_ta).trace →
      v = p.TA_VERIFICATION_BASE) := by
  have ha := get_auth_mode_events p g w
  have hc := copy_events_filter p m key_cert
  have hmem : ∀ (t : List Event) (v : Nat), Event.store_secmem_ta v ∈ t →
      Event.store_secmem_ta v ∈ t.filter Event.isStore := by
    intro t v hv
    exact List.mem_filter.mpr ⟨hv, rfl⟩
  by_cases hrefuse : g.product_type &&& p.PRR_PRODUCT_UNKNOWN ≠ 0 ∨
      ¬ ptr_add p p.TA_VERIFICATION_BASE
          (rcar_auth_ta_certificate_sizes m key_cert).object_size ≤ TA_KEY_CERT_ADDR p
  · rw [rcar_auth_refused p g w m key_cert secmem_ta hrefuse]
    refine ⟨Or.inr rfl, ?_, ?_, ?_⟩
    · intro h; exact absurd h.symm hres
    · intro _; exact ⟨rfl, rfl⟩
    · intro v hv; simp at hv
  · have hknown : g.product_type &&& p.PRR_PRODUCT_UNKNOWN = 0 := by
      by_contra hk; exact hrefuse (Or.inl hk)
    have hfit : ptr_add p p.TA_VERIFICATION_BASE
        (rcar_auth_ta_certificate_sizes m key_cert).object_size ≤ TA_KEY_CERT_ADDR p := by
      by_contra hk; exact hrefuse (Or.inr hk)
    by_cases hmode : (get_auth_mode p g w).1 = SECURE_BOOT_MODE
    · rw [rcar_auth_secure_path p g w m key_cert secmem_ta hknown hfit hmode]
      by_cases hs : (w.ROM_SecureBootAPI g.ROM_SecureBootAPI
          (rcar_auth_ta_certificate_copies p m key_cert)
          (TA_KEY_CERT_ADDR p) (TA_CONTENT_CERT_ADDR p) NULL).1 = 0
      · rw [if_pos hs]
        have hf : (rcar_auth_ta_certificate_copy_events p m key_cert
              ++ (get_auth_mode p g w).2
              ++ [Event.asm_switch_stack_pointer (TA_NONCACHE_STACK_ADDR p) NULL,
                  Event.hw_engine_lock p.HWENG_SECURE_CORE,
                  Event.ROM_SecureBootAPI g.ROM_SecureBootAPI (TA_KEY_CERT_ADDR p)
                    (TA_CONTENT_CERT_ADDR p) NULL,
                  Event.hw_engine_unlock (w.hw_engine_lock p.HWENG_SECURE_CORE)]
              ++ [Event.store_secmem_ta p.TA_VERIFICATION_BASE]).filter Event.isStore
            = [Event.store_secmem_ta p.TA_VERIFICATION_BASE] := by
          simp [List.filter_append, ha.2.2.1, hc.2.2, Event.isStore]
        refine ⟨Or.inl rfl, ?_, ?_, ?_⟩
        · intro _; exact ⟨hf, rfl⟩
        · intro h; exact absurd rfl h
        · intro v hv
          have := hmem _ v hv
          rw [hf] at this
          simpa using this
      · rw [if_neg hs]
        have hf : (rcar_auth_ta_certificate_copy_events p m key_cert
              ++ (get_auth_mode p g w).2
              ++ [Event.asm_switch_stack_pointer (TA_NONCACHE_STACK_ADDR p) NULL,
                  Event.hw_engine_lock p.HWENG_SECURE_CORE,
                  Event.ROM_SecureBootAPI g.ROM_SecureBootAPI (TA_KEY_CERT_ADDR p)
                    (TA_CONTENT_CERT_ADDR p) NULL,
                  Event.hw_engine_unlock (w.hw_engine_lock p.HWENG_SECURE_CORE)]).filter
              Event.isStore = [] := by
          simp [List.filter_append, ha.2.2.1, hc.2.2, Event.isStore]
        refine ⟨Or.inr rfl, ?_, ?_, ?_⟩
        · intro h; exact absurd h.symm hres
        · intro _; exact ⟨hf, rfl⟩
        · intro v hv
          have := hmem _ v hv
          rw [hf] at this
          simp at this
    · rw [rcar_auth_normal_path p g w m key_cert secmem_ta hknown hfit hmode]
      have hf : (rcar_auth_ta_certificate_copy_events p m key_cert
            ++ (get_auth_mode p g w).2
            ++ [Event.store_secmem_ta p.TA_VERIFICATION_BASE]).filter Event.isStore
          = [Event.store_secmem_ta p.TA_VERIFICATION_BASE] := by
        simp [List.filter_append, ha.2.2.1, hc.2.2, Event.isStore]
      refine ⟨Or.inl rfl, ?_, ?_, ?_⟩
      · intro _; exact ⟨hf, rfl⟩
      · intro h; exact absurd rfl h
      · intro v hv
        have := hmem _ v hv
        rw [hf] at this
        simpa using this

/-- C1 on the example input with an H3 product, `lcs = 5`, soft-mode bit 0
clear and a ROM that returns 1: the call is refused and `*secmem_ta` keeps
its value 7. -/
theorem rcar_auth_secure_mode_witness :
    (rcar_auth_ta_certificate example_platform (product_default example_platform)
        (example_world 0 0 5 1) (example_blob 0) 4096 7).trace.filter Event.isSecureBoot
      = [Event.ROM_SecureBootAPI (product_default example_platform).ROM_SecureBootAPI
          (TA_KEY_CERT_ADDR example_platform) (TA_CONTENT_CERT_ADDR example_platform) NULL] ∧
    (rcar_auth_ta_certificate example_platform (product_default example_platform)
        (example_world 0 0 5 1) (example_blob 0) 4096 7).res
      = example_platform.TEE_ERROR_SECURITY ∧
    (rcar_auth_ta_certificate example_platform (product_default example_platform)
        (example_world 0 0 5 1) (example_blob 0) 4096 7).secmem_ta = 7 :=
  have h := rcar_auth_secure_mode example_platform (product_default example_platform)
    (example_world 0 0 5 1) (example_blob 0) 4096 7
    (by decide) (by decide) (by decide) (by decide)
  ⟨h.1, (h.2.2 (by decide)).1, (h.2.2 (by decide)).2.1⟩

/-- C2 on the example input with an H3 product, `lcs = 5` and soft-mode bit 0
set, with a ROM that would reject. -/
theorem rcar_auth_normal_mode_witness :
    (rcar_auth_ta_certificate example_platform (product_default example_platform)
        (example_world 1 0 5 1) (example_blob 0) 4096 7).res
      = example_platform.TEE_SUCCESS ∧
    (rcar_auth_ta_certificate example_platform (product_default example_platform)
        (example_world 1 0 5 1) (example_blob 0) 4096 7).secmem_ta
      = example_platform.TA_VERIFICATION_BASE ∧
    (rcar_auth_ta_certificate example_platform (product_default example_platform)
        (example_world 1 0 5 1) (example_blob 0) 4096 7).trace.filter Event.isSecureBoot
      = [] ∧
    (rcar_auth_ta_certificate example_platform (product_default example_platform)
        (example_world 1 0 5 1) (example_blob 0) 4096 7).trace.filter Event.isLock
      = [] :=
  have h := rcar_auth_normal_mode example_platform (product_default example_platform)
    (example_world 1 0 5 1) (example_blob 0) 4096 7
    (by decide) (by decide) (by decide)
  ⟨h.1, h.2.1, h.2.2.2.1, h.2.2.2.2⟩

/-- C3 on the product state `product_setup` leaves when the product register
reads `0x5500` (neither H3 nor M3). -/
theorem rcar_auth_unknown_product_witness :
    (product_setup example_platform (example_world 0x5500 0 0 0)
        (product_default example_platform)).product_type
      &&& example_platform.PRR_PRODUCT_UNKNOWN ≠ 0 ∧
    (rcar_auth_ta_certificate example_platform
        (product_setup example_platform (example_world 0x5500 0 0 0)
          (product_default example_platform))
        (example_world 0x5500 0 0 0) (example_blob 0) 4096 7).res
      = example_platform.TEE_ERROR_SECURITY ∧
    (rcar_auth_ta_certificate example_platform
        (product_setup example_platform (example_world 0x5500 0 0 0)
          (product_default example_platform))
        (example_world 0x5500 0 0 0) (example_blob 0) 4096 7).trace = [] :=
  have hset := (rcar_auth_unknown_product example_platform
    (product_default example_platform) (example_world 0x5500 0 0 0) (example_blob 0)
    4096 7).2 (by decide) (by decide) (by decide)
  have h := (rcar_auth_unknown_product example_platform
    (product_setup example_platform (example_world 0x5500 0 0 0)
      (product_default example_platform))
    (example_world 0x5500 0 0 0) (example_blob 0) 4096 7).1 hset
  ⟨hset, h.1, h.2.2.2⟩

/-- The 64-bit example platform refuses the input with block count
`0x01000002` (an object of `0x04000008` bytes, above the one-megabyte
region) and the input with block count `0x30000002`, memory untouched. -/
theorem layout_overflow_refused_64bit_example :
    (rcar_auth_ta_certificate example_platform (product_default example_platform)
        (example_world 0 0 5 0) (example_blob 1) 4096 7).res
      = example_platform.TEE_ERROR_SECURITY ∧
    (rcar_auth_ta_certificate example_platform (product_default example_platform)
        (example_world 0 0 5 0) (example_blob 1) 4096 7).mem = example_blob 1 ∧
    (rcar_auth_ta_certificate example_platform (product_default example_platform)
        (example_world 1 0 5 0) arm32_wrap_blob 4096 7).res
      = example_platform.TEE_ERROR_SECURITY ∧
    (rcar_auth_ta_certificate example_platform (product_default example_platform)
        (example_world 1 0 5 0) arm32_wrap_blob 4096 7).mem = arm32_wrap_blob :=
  have h1 := layout_overflow_refused_64bit example_platform
    (product_default example_platform) (example_world 0 0 5 0) (example_blob 1) 4096 7
    rfl (by decide) (by decide)
  have h2 := layout_overflow_refused_64bit example_platform
    (product_default example_platform) (example_world 1 0 5 0) arm32_wrap_blob 4096 7
    rfl (by decide) (by decide)
  ⟨h1.1, h1.2.1, h2.1, h2.2.1⟩

/-- C5 on the example input with a ROM that accepts (status 0) in secure
mode. -/
theorem rcar_auth_result_and_store_witness :
    (rcar_auth_ta_certificate example_platform (product_default example_platform)
        (example_world 0 0 5 0) (example_blob 0) 4096 7).trace.filter Event.isStore
      = [Event.store_secmem_ta example_platform.TA_VERIFICATION_BASE] ∧
    (rcar_auth_ta_certificate example_platform (product_default example_platform)
        (example_world 0 0 5 0) (example_blob 0) 4096 7).secmem_ta
      = example_platform.TA_VERIFICATION_BASE :=
  (rcar_auth_result_and_store example_platform (product_default example_platform)
    (example_world 0 0 5 0) (example_blob 0) 4096 7 (by decide)).2.1 (by decide)


/-! ## Boot mode, lock discipline -/

theorem md5_bit (x : Nat) : (x &&& 0x00000020) >>> 5 = (x / 2 ^ 5) % 2 := by
  have hm : (x / 2 ^ 5) % 2 = (x / 2 ^ 5) % 2 ^ 1 := by norm_num
  rw [hm]
  apply Nat.eq_of_testBit_eq
  intro i
  have hc : (0x00000020 : Nat) = (2 ^ 1 - 1) <<< 5 := by decide
  rw [hc, Nat.testBit_mod_two_pow, Nat.testBit_shiftRight, Nat.testBit_and,
    Nat.testBit_shiftLeft, Nat.testBit_two_pow_sub_one, ← Nat.shiftRight_eq_div_pow,
    Nat.testBit_shiftRight]
  by_cases h : i < 1 <;> simp [h]

theorem md5_set_iff (x : Nat) : (x &&& 0x00000020) >>> 5 ≠ 0 ↔ (x / 2 ^ 5) % 2 = 1 := by
  rw [md5_bit]
  omega

/-- C11: when `ROM_GetLcs` returns status 0: with `lcs = 5` (SE),
`get_auth_mode` returns `NORMAL_BOOT_MODE` iff bit 0 of `MFIS_SOFTMDR` is 1,
and the only register it reads is `MFIS_SOFTMDR`; with any other `lcs`
(whether or not one of 0, 1, 3, 7) it returns `NORMAL_BOOT_MODE` iff bit 5 of
`RST_MODEMR` is 1, and the only register it reads is `RST_MODEMR`; whenever it
does not return `NORMAL_BOOT_MODE` it returns `SECURE_BOOT_MODE`. -/
theorem get_auth_mode_lcs_success (p : Platform) (g : Product) (w : World)
    (hret : (w.ROM_GetLcs g.ROM_GetLcs).1 = 0) :
    ((w.ROM_GetLcs g.ROM_GetLcs).2 = 5 →
      ((get_auth_mode p g w).1 = NORMAL_BOOT_MODE
        ↔ w.read32 (MFIS_SOFTMDR p) % 2 = 1) ∧
      (get_auth_mode p g w).2
        = [Event.ROM_GetLcs g.ROM_GetLcs, Event.read32 (MFIS_SOFTMDR p)]) ∧
    ((w.ROM_GetLcs g.ROM_GetLcs).2 ≠ 5 →
      ((get_auth_mode p g w).1 = NORMAL_BOOT_MODE
        ↔ (w.read32 (RST_MODEMR p) / 2 ^ 5) % 2 = 1) ∧
      (get_auth_mode p g w).2
        = [Event.ROM_GetLcs g.ROM_GetLcs, Event.read32 (RST_MODEMR p)]) ∧
    ((get_auth_mode p g w).1 ≠ NORMAL_BOOT_MODE →
      (get_auth_mode p g w).1 = SECURE_BOOT_MODE) := by
  refine ⟨?_, ?_, ?_⟩
  · intro hlcs
    unfold get_auth_mode
    simp only [hret, hlcs, LCS_SE, if_true, Nat.and_one_is_mod]
    by_cases hb : w.read32 (MFIS_SOFTMDR p) % 2 = 1
    · simp [hb, NORMAL_BOOT_MODE]
    · simp [hb, NORMAL_BOOT_MODE, SECURE_BOOT_MODE]
  · intro hlcs
    have hm := md5_set_iff (w.read32 (RST_MODEMR p))
    unfold get_auth_mode
    simp only [hret, hlcs, LCS_SE, if_true, if_false]
    by_cases hb : (w.read32 (RST_MODEMR p) &&& 0x00000020) >>> 5 ≠ 0
    · rw [if_pos hb]
      exact ⟨⟨fun _ => hm.mp hb, fun _ => rfl⟩, rfl⟩
    · rw [if_neg hb]
      refine ⟨⟨fun h => ?_, fun h => absurd (hm.mpr h) hb⟩, rfl⟩
      have hd : SECURE_BOOT_MODE ≠ NORMAL_BOOT_MODE := by decide
      exact absurd h hd
  · intro hn
    rcases get_auth_mode_range p g w with h | h
    · exact h
    · exact absurd h hn

/-- C11 on a successful `ROM_GetLcs`: with `lcs = 5` and the registers
reading `0x21` (both mode bits set) the mode is normal; with `lcs = 0` and
the registers reading `0x01` (MD5 clear) the mode is secure. -/
theorem get_auth_mode_lcs_success_witness :
    (get_auth_mode example_platform (product_default example_platform)
        (example_world 0x21 0 5 0)).1 = NORMAL_BOOT_MODE ∧
    (get_auth_mode example_platform (product_default example_platform)
        (example_world 0x01 0 0 0)).1 = SECURE_BOOT_MODE :=
  ⟨((get_auth_mode_lcs_success example_platform (product_default example_platform)
      (example_world 0x21 0 5 0) (by decide)).1 (by decide)).1.mpr (by decide),
   (get_auth_mode_lcs_success example_platform (product_default example_platform)
      (example_world 0x01 0 0 0) (by decide)).2.2
      (fun h => absurd
        (((get_auth_mode_lcs_success example_platform (product_default example_platform)
          (example_world 0x01 0 0 0) (by decide)).2.1 (by decide)).1.mp h)
        (by decide))⟩

/-- C12: for every ROM behaviour, `call_maskrom_api` takes the
`HWENG_SECURE_CORE` lock once, then calls `ROM_SecureBootAPI` with the two
slot addresses and `NULL`, then releases once the handle the lock call gave,
and returns the ROM status unchanged; the lock is held when the ROM is called
and is not held when `call_maskrom_api` returns. -/
theorem call_maskrom_api_lock_discipline (p : Platform) (g : Product) (w : World)
    (m : Mem) :
    (call_maskrom_api p g w m).trace
      = [Event.hw_engine_lock p.HWENG_SECURE_CORE,
         Event.ROM_SecureBootAPI g.ROM_SecureBootAPI (TA_KEY_CERT_ADDR p)
           (TA_CONTENT_CERT_ADDR p) NULL,
         Event.hw_engine_unlock (w.hw_engine_lock p.HWENG_SECURE_CORE)] ∧
    (call_maskrom_api p g w m).ret
      = (w.ROM_SecureBootAPI g.ROM_SecureBootAPI m (TA_KEY_CERT_ADDR p)
          (TA_CONTENT_CERT_ADDR p) NULL).1 ∧
    (call_maskrom_api p g w m).trace.filter Event.isLock
      = [Event.hw_engine_lock p.HWENG_SECURE_CORE] ∧
    (call_maskrom_api p g w m).trace.filter Event.isUnlock
      = [Event.hw_engine_unlock (w.hw_engine_lock p.HWENG_SECURE_CORE)] ∧
    (call_maskrom_api p g w m).trace.filter Event.isSecureBoot
      = [Event.ROM_SecureBootAPI g.ROM_SecureBootAPI (TA_KEY_CERT_ADDR p)
          (TA_CONTENT_CERT_ADDR p) NULL] ∧
    lock_held_after ((call_maskrom_api p g w m).trace.take 1) false = true ∧
    ((call_maskrom_api p g w m).trace.drop 1).head?
      = some (Event.ROM_SecureBootAPI g.ROM_SecureBootAPI (TA_KEY_CERT_ADDR p)
          (TA_CONTENT_CERT_ADDR p) NULL) ∧
    lock_held_after ((call_maskrom_api p g w m).trace.take 2) false = true ∧
    lock_held_after (call_maskrom_api p g w m).trace false = false := by
  simp [call_maskrom_api, lock_held_after, Event.isLock, Event.isUnlock, Event.isSecureBoot]

/-! ## Platform probe -/

/-- C14: from the initial product state, `product_setup` on a register whose
masked product code is H3 leaves type H3, name "H3" and the H3 address pair;
on M3 it leaves type M3, name "M3" and the M3 address pair; on any other
code `c` it leaves type `c | PRR_PRODUCT_UNKNOWN`, name "unknown" and the H3
address pair.  The pairs are (0xEB101F54, 0xEB1021B4) and
(0xEB103EFC, 0xEB10415C) for H3 and M3 with `ARM32`, (0xEB10DD64, 0xEB10DFE0)
and (0xEB1102FC, 0xEB110578) without. -/
theorem product_setup_from_default (p : Platform) (w : World) :
    (w.read32 p.PRR &&& p.PRR_PRODUCT_MASK = p.PRR_PRODUCT_H3 →
      product_setup p w (product_default p)
        = { product_type := p.PRR_PRODUCT_H3, product_name := "H3",
            ROM_SecureBootAPI := ADDR_ROM_SECURE_API_H3 p,
            ROM_GetLcs := ADDR_ROM_GETLCS_API_H3 p }) ∧
    (w.read32 p.PRR &&& p.PRR_PRODUCT_MASK ≠ p.PRR_PRODUCT_H3 →
      w.read32 p.PRR &&& p.PRR_PRODUCT_MASK = p.PRR_PRODUCT_M3 →
      product_setup p w (product_default p)
        = { product_type := p.PRR_PRODUCT_M3, product_name := "M3",
            ROM_SecureBootAPI := ADDR_ROM_SECURE_API_M3 p,
            ROM_GetLcs := ADDR_ROM_GETLCS_API_M3 p }) ∧
    (w.read32 p.PRR &&& p.PRR_PRODUCT_MASK ≠ p.PRR_PRODUCT_H3 →
      w.read32 p.PRR &&& p.PRR_PRODUCT_MASK ≠ p.PRR_PRODUCT_M3 →
      product_setup p w (product_default p)
        = { product_type := (w.read32 p.PRR &&& p.PRR_PRODUCT_MASK) ||| p.PRR_PRODUCT_UNKNOWN,
            product_name := "unknown",
            ROM_SecureBootAPI := ADDR_ROM_SECURE_API_H3 p,
            ROM_GetLcs := ADDR_ROM_GETLCS_API_H3 p }) ∧
    (p.ARM32 = true →
      ADDR_ROM_SECURE_API_H3 p = 0xEB101F54 ∧ ADDR_ROM_GETLCS_API_H3 p = 0xEB1021B4 ∧
      ADDR_ROM_SECURE_API_M3 p = 0xEB103EFC ∧ ADDR_ROM_GETLCS_API_M3 p = 0xEB10415C) ∧
    (p.ARM32 = false →
      ADDR_ROM_SECURE_API_H3 p = 0xEB10DD64 ∧ ADDR_ROM_GETLCS_API_H3 p = 0xEB10DFE0 ∧
      ADDR_ROM_SECURE_API_M3 p = 0xEB1102FC ∧ ADDR_ROM_GETLCS_API_M3 p = 0xEB110578) := by
  refine ⟨?_, ?_, ?_, ?_, ?_⟩
  · intro h3
    unfold product_setup
    simp only [h3, if_true]
    rfl
  · intro h3 m3
    unfold product_setup
    simp only []
    rw [if_neg h3, if_pos m3]
  · intro h3 m3
    unfold product_setup
    simp only []
    rw [if_neg h3, if_neg m3]
    rfl
  · intro h
    simp [ADDR_ROM_SECURE_API_H3, ADDR_ROM_GETLCS_API_H3, ADDR_ROM_SECURE_API_M3,
      ADDR_ROM_GETLCS_API_M3, h]
  · intro h
    simp [ADDR_ROM_SECURE_API_H3, ADDR_ROM_GETLCS_API_H3, ADDR_ROM_SECURE_API_M3,
      ADDR_ROM_GETLCS_API_M3, h]

/-- C14 on the example platform (a 64-bit build) with the product register
reading `0x5200` (M3), `0x4F00` (H3) and `0x5500` (neither). -/
theorem product_setup_from_default_witness :
    product_setup example_platform (example_world 0x5200 0 0 0)
        (product_default example_platform)
      = { product_type := 0x5200, product_name := "M3",
          ROM_SecureBootAPI := 0xEB1102FC, ROM_GetLcs := 0xEB110578 } ∧
    product_setup example_platform (example_world 0x4F00 0 0 0)
        (product_default example_platform)
      = { product_type := 0x4F00, product_name := "H3",
          ROM_SecureBootAPI := 0xEB10DD64, ROM_GetLcs := 0xEB10DFE0 } ∧
    product_setup example_platform (example_world 0x5500 0 0 0)
        (product_default example_platform)
      = { product_type := 0x01005500, product_name := "unknown",
          ROM_SecureBootAPI := 0xEB10DD64, ROM_GetLcs := 0xEB10DFE0 } :=
  ⟨(product_setup_from_default example_platform (example_world 0x5200 0 0 0)).2.1
      (by decide) (by decide),
   (product_setup_from_default example_platform (example_world 0x4F00 0 0 0)).1
      (by decide),
   (product_setup_from_default example_platform (example_world 0x5500 0 0 0)).2.2.1
      (by decide) (by decide)⟩

/-- C15: `product_setup` is idempotent: for every prior product state and
every value of the product register, running it twice leaves the state that
running it once leaves. -/
theorem product_setup_idempotent (p : Platform) (w : World) (g : Product) :
    product_setup p w (product_setup p w g) = product_setup p w g := by
  unfold product_setup
  simp only []
  split_ifs <;> rfl

/-! ## Memory map -/

theorem area_bounds (p : Platform) (a : Nat) :
    (in_ta_object_area p a = true ↔
      p.TA_VERIFICATION_BASE ≤ a ∧
      a < p.TA_VERIFICATION_BASE + (p.TA_VERIFICATION_SIZE - 4096 - 4096 - 4096)) ∧
    (in_key_cert_area p a = true ↔
      p.TA_VERIFICATION_BASE + p.TA_VERIFICATION_SIZE - 4096 - 4096 - 4096 ≤ a ∧
      a < p.TA_VERIFICATION_BASE + p.TA_VERIFICATION_SIZE - 4096 - 4096 - 4096 + 4096) ∧
    (in_content_cert_area p a = true ↔
      p.TA_VERIFICATION_BASE + p.TA_VERIFICATION_SIZE - 4096 - 4096 ≤ a ∧
      a < p.TA_VERIFICATION_BASE + p.TA_VERIFICATION_SIZE - 4096 - 4096 + 4096) ∧
    (in_noncache_stack_area p a = true ↔
      p.TA_VERIFICATION_BASE + p.TA_VERIFICATION_SIZE - 4096 ≤ a ∧
      a < p.TA_VERIFICATION_BASE + p.TA_VERIFICATION_SIZE) := by
  simp [in_ta_object_area, in_key_cert_area, in_content_cert_area, in_noncache_stack_area,
    TA_KEY_CERT_ADDR, TA_CONTENT_CERT_ADDR, TA_NONCACHE_STACK_ADDR, TA_KEY_CERT_AREA_SIZE,
    TA_CONTENT_CERT_AREA_SIZE, TA_NONCACHE_STACK_AREA_SIZE]

theorem slot_addresses (p : Platform) :
    TA_NONCACHE_STACK_ADDR p = p.TA_VERIFICATION_BASE + p.TA_VERIFICATION_SIZE ∧
    TA_CONTENT_CERT_ADDR p
      = p.TA_VERIFICATION_BASE + p.TA_VERIFICATION_SIZE - 4096 - 4096 ∧
    TA_KEY_CERT_ADDR p
      = p.TA_VERIFICATION_BASE + p.TA_VERIFICATION_SIZE - 4096 - 4096 - 4096 :=
  ⟨rfl, rfl, rfl⟩

/-- C16: with `B = TA_VERIFICATION_BASE`, `L = TA_VERIFICATION_SIZE` at least
`3 * 4096` and `end = B + L`: `TA_KEY_CERT_ADDR = end - 12288`,
`TA_CONTENT_CERT_ADDR = end - 8192`, `TA_NONCACHE_STACK_ADDR = end`; the TA
object area `[B, B + L - 3 * 4096)`, the key-certificate area, the
content-certificate area and the stack area `[end - 4096, end)` follow one
another without gap, are pairwise disjoint and together are exactly
`[B, end)`. -/
theorem memory_map_tiles (p : Platform) (hL : 3 * 4096 ≤ p.TA_VERIFICATION_SIZE) :
    TA_KEY_CERT_ADDR p = p.TA_VERIFICATION_BASE + p.TA_VERIFICATION_SIZE - 12288 ∧
    TA_CONTENT_CERT_ADDR p = p.TA_VERIFICATION_BASE + p.TA_VERIFICATION_SIZE - 8192 ∧
    TA_NONCACHE_STACK_ADDR p = p.TA_VERIFICATION_BASE + p.TA_VERIFICATION_SIZE ∧
    p.TA_VERIFICATION_BASE + (p.TA_VERIFICATION_SIZE - 3 * 4096) = TA_KEY_CERT_ADDR p ∧
    TA_KEY_CERT_ADDR p + TA_KEY_CERT_AREA_SIZE = TA_CONTENT_CERT_ADDR p ∧
    TA_CONTENT_CERT_ADDR p + TA_CONTENT_CERT_AREA_SIZE
      = TA_NONCACHE_STACK_ADDR p - TA_NONCACHE_STACK_AREA_SIZE ∧
    (∀ a : Nat,
      (p.TA_VERIFICATION_BASE ≤ a ∧ a < p.TA_VERIFICATION_BASE + p.TA_VERIFICATION_SIZE)
        ↔ (in_ta_object_area p a = true ∨ in_key_cert_area p a = true ∨
            in_content_cert_area p a = true ∨ in_noncache_stack_area p a = true)) ∧
    (∀ a : Nat,
      ¬ (in_ta_object_area p a = true ∧ in_key_cert_area p a = true) ∧
      ¬ (in_ta_object_area p a = true ∧ in_content_cert_area p a = true) ∧
      ¬ (in_ta_object_area p a = true ∧ in_noncache_stack_area p a = true) ∧
      ¬ (in_key_cert_area p a = true ∧ in_content_cert_area p a = true) ∧
      ¬ (in_key_cert_area p a = true ∧ in_noncache_stack_area p a = true) ∧
      ¬ (in_content_cert_area p a = true ∧ in_noncache_stack_area p a = true)) := by
  obtain ⟨hs, hc, hk⟩ := slot_addresses p
  refine ⟨by omega, by omega, hs, by omega, ?_, ?_, ?_, ?_⟩
  · simp only [TA_KEY_CERT_AREA_SIZE]; omega
  · simp only [TA_CONTENT_CERT_AREA_SIZE, TA_NONCACHE_STACK_AREA_SIZE]; omega
  · intro a
    obtain ⟨h1, h2, h3, h4⟩ := area_bounds p a
    rw [h1, h2, h3, h4]
    omega
  · intro a
    obtain ⟨h1, h2, h3, h4⟩ := area_bounds p a
    rw [h1, h2, h3, h4]
    omega

/-- C16 on the example platform (base `0x44100000`, size `0x100000`). -/
theorem memory_map_tiles_witness :
    TA_KEY_CERT_ADDR example_platform = 0x441FD000 ∧
    TA_CONTENT_CERT_ADDR example_platform = 0x441FE000 ∧
    TA_NONCACHE_STACK_ADDR example_platform = 0x44200000 :=
  have h := memory_map_tiles example_platform (by decide)
  ⟨h.1, h.2.1, h.2.2.1⟩

/-! ## Staging -/

theorem memcpy_inside (m : Mem) (dst src n i : Nat) (hi : i < n) :
    memcpy m dst src n (dst + i) = m (src + i) := by
  unfold memcpy
  rw [if_pos ⟨by omega, by omega⟩]
  congr 1
  omega

theorem memcpy_outside (m : Mem) (dst src n a : Nat) (ha : a < dst ∨ dst + n ≤ a) :
    memcpy m dst src n a = m a := by
  unfold memcpy
  rw [if_neg (by omega)]

theorem effective_sizes_le (m : Mem) (key_cert : Nat) :
    (rcar_auth_ta_certificate_sizes m key_cert).key_cert_size ≤ 4096 ∧
    (rcar_auth_ta_certificate_sizes m key_cert).content_cert_size ≤ 4096 ∧
    (rcar_auth_ta_certificate_sizes m key_cert).content_cert
      = key_cert + (rcar_auth_ta_certificate_sizes m key_cert).key_cert_size := by
  simp only [rcar_auth_ta_certificate_sizes, TA_KEY_CERT_AREA_SIZE, TA_CONTENT_CERT_AREA_SIZE,
    KEY_CERT_DEFAULT_SIZE, CONTENT_CERT_DEFAULT_SIZE]
  refine ⟨?_, ?_, trivial⟩
  · split_ifs <;> omega
  · split_ifs <;> omega

theorem copies_unfold (p : Platform) (m : Mem) (key_cert : Nat) :
    rcar_auth_ta_certificate_copies p m key_cert
      = memcpy
          (memcpy
            (memcpy m p.TA_VERIFICATION_BASE
              ((rcar_auth_ta_certificate_sizes m key_cert).content_cert
                + (rcar_auth_ta_certificate_sizes m key_cert).content_cert_size)
              (rcar_auth_ta_certificate_sizes m key_cert).object_size)
            (TA_KEY_CERT_ADDR p) key_cert
            (rcar_auth_ta_certificate_sizes m key_cert).key_cert_size)
          (TA_CONTENT_CERT_ADDR p)
          (rcar_auth_ta_certificate_sizes m key_cert).content_cert
          (rcar_auth_ta_certificate_sizes m key_cert).content_cert_size :=
  rfl

/-- The bytes of the staging areas after the three copies, for slot addresses
that do not underflow, an object that fits and an input that lies outside
`[TA_VERIFICATION_BASE, TA_VERIFICATION_BASE + TA_VERIFICATION_SIZE)`. -/
theorem copies_content (p : Platform) (m : Mem) (key_cert : Nat)
    (hmap : 3 * 4096 ≤ p.TA_VERIFICATION_BASE + p.TA_VERIFICATION_SIZE)
    (hfit : p.TA_VERIFICATION_BASE + (rcar_auth_ta_certificate_sizes m key_cert).object_size
      ≤ TA_KEY_CERT_ADDR p)
    (hsep : key_cert + (rcar_auth_ta_certificate_sizes m key_cert).key_cert_size
          + (rcar_auth_ta_certificate_sizes m key_cert).content_cert_size
          + (rcar_auth_ta_certificate_sizes m key_cert).object_size
        ≤ p.TA_VERIFICATION_BASE ∨
      p.TA_VERIFICATION_BASE + p.TA_VERIFICATION_SIZE ≤ key_cert) :
    (∀ i, i < (rcar_auth_ta_certificate_sizes m key_cert).key_cert_size →
      rcar_auth_ta_certificate_copies p m key_cert (TA_KEY_CERT_ADDR p + i)
        = m (key_cert + i)) ∧
    (∀ i, i < (rcar_auth_ta_certificate_sizes m key_cert).content_cert_size →
      rcar_auth_ta_certificate_copies p m key_cert (TA_CONTENT_CERT_ADDR p + i)
        = m (key_cert + (rcar_auth_ta_certificate_sizes m key_cert).key_cert_size + i)) ∧
    (∀ i, i < (rcar_auth_ta_certificate_sizes m key_cert).object_size →
      rcar_auth_ta_certificate_copies p m key_cert (p.TA_VERIFICATION_BASE + i)
        = m (key_cert + (rcar_auth_ta_certificate_sizes m key_cert).key_cert_size
            + (rcar_auth_ta_certificate_sizes m key_cert).content_cert_size + i)) := by
  obtain ⟨hks, hcs, hcc⟩ := effective_sizes_le m key_cert
  obtain ⟨hs, hc, hk⟩ := slot_addresses p
  rw [copies_unfold, hcc]
  generalize (rcar_auth_ta_certificate_sizes m key_cert).key_cert_size = ks at *
  generalize (rcar_auth_ta_certificate_sizes m key_cert).content_cert_size = cs at *
  generalize (rcar_auth_ta_certificate_sizes m key_cert).object_size = os at *
  generalize TA_KEY_CERT_ADDR p = K at *
  generalize TA_CONTENT_CERT_ADDR p = C at *
  refine ⟨?_, ?_, ?_⟩
  · intro i hi
    rw [memcpy_outside _ _ _ _ _ (by omega), memcpy_inside _ _ _ _ _ hi,
      memcpy_outside _ _ _ _ _ (by omega)]
  · intro i hi
    rw [memcpy_inside _ _ _ _ _ hi, memcpy_outside _ _ _ _ _ (by omega),
      memcpy_outside _ _ _ _ _ (by omega)]
  · intro i hi
    rw [memcpy_outside _ _ _ _ _ (by omega), memcpy_outside _ _ _ _ _ (by omega),
      memcpy_inside _ _ _ _ _ hi]

theorem copies_in_trace (p : Platform) (g : Product) (w : World) (m : Mem)
    (key_cert secmem_ta : Nat)
    (hknown : g.product_type &&& p.PRR_PRODUCT_UNKNOWN = 0)
    (hchk : ptr_add p p.TA_VERIFICATION_BASE
        (rcar_auth_ta_certificate_sizes m key_cert).object_size ≤ TA_KEY_CERT_ADDR p) :
    (rcar_auth_ta_certificate p g w m key_cert secmem_ta).trace.filter Event.isMemcpy
      = rcar_auth_ta_certificate_copy_events p m key_cert := by
  have ha := (get_auth_mode_events p g w).2.2.2
  have hc : (rcar_auth_ta_certificate_copy_events p m key_cert).filter Event.isMemcpy
      = rcar_auth_ta_certificate_copy_events p m key_cert := by
    simp [rcar_auth_ta_certificate_copy_events, Event.isMemcpy]
  by_cases hmode : (get_auth_mode p g w).1 = SECURE_BOOT_MODE
  · rw [rcar_auth_secure_path p g w m key_cert secmem_ta hknown hchk hmode]
    split_ifs <;> simp [List.filter_append, ha, hc, Event.isMemcpy]
  · rw [rcar_auth_normal_path p g w m key_cert secmem_ta hknown hchk hmode]
    simp [List.filter_append, ha, hc, Event.isMemcpy]

theorem copies_performed_iff (p : Platform) (g : Product) (w : World) (m : Mem)
    (key_cert secmem_ta : Nat) :
    (rcar_auth_ta_certificate p g w m key_cert secmem_ta).trace.filter Event.isMemcpy ≠ []
      ↔ (g.product_type &&& p.PRR_PRODUCT_UNKNOWN = 0 ∧
          ptr_add p p.TA_VERIFICATION_BASE
            (rcar_auth_ta_certificate_sizes m key_cert).object_size
              ≤ TA_KEY_CERT_ADDR p) := by
  constructor
  · intro h
    by_contra hn
    have hr : g.product_type &&& p.PRR_PRODUCT_UNKNOWN ≠ 0 ∨
        ¬ ptr_add p p.TA_VERIFICATION_BASE
            (rcar_auth_ta_certificate_sizes m key_cert).object_size
              ≤ TA_KEY_CERT_ADDR p := by
      by_cases hk : g.product_type &&& p.PRR_PRODUCT_UNKNOWN = 0
      · right
        intro hf
        exact hn ⟨hk, hf⟩
      · left
        exact hk
    rw [rcar_auth_refused p g w m key_cert secmem_ta hr] at h
    exact h rfl
  · rintro ⟨hk, hf⟩
    rw [copies_in_trace p g w m key_cert secmem_ta hk hf]
    simp [rcar_auth_ta_certificate_copy_events]

/-- C13: with the product known, the object fitting below the key-certificate
slot and the input outside the verification region (the slot addresses not
underflowing: the region ends at or above `3 * 4096`), the copies of `rcar_auth_ta_certificate` are the three
`memcpy`s to the object area, the key-certificate slot and the
content-certificate slot, in that order, and the memory they leave has, with
`ks` and `cs` the effective certificate sizes: input bytes `[0, ks)` at the
start of the key-certificate slot, input bytes `[ks, ks + cs)` at the start of
the content-certificate slot, input bytes `[ks + cs, ks + cs + object_size)`
at the start of the object area.  That memory is what the ROM receives in
secure mode and what the call leaves in normal mode. -/
theorem staging_copies_content (p : Platform) (g : Product) (w : World) (m : Mem)
    (key_cert secmem_ta : Nat)
    (hmap : 3 * 4096 ≤ p.TA_VERIFICATION_BASE + p.TA_VERIFICATION_SIZE)
    (hknown : g.product_type &&& p.PRR_PRODUCT_UNKNOWN = 0)
    (hfit : p.TA_VERIFICATION_BASE + (rcar_auth_ta_certificate_sizes m key_cert).object_size
      ≤ TA_KEY_CERT_ADDR p)
    (hsep : key_cert + (rcar_auth_ta_certificate_sizes m key_cert).key_cert_size
          + (rcar_auth_ta_certificate_sizes m key_cert).content_cert_size
          + (rcar_auth_ta_certificate_sizes m key_cert).object_size
        ≤ p.TA_VERIFICATION_BASE ∨
      p.TA_VERIFICATION_BASE + p.TA_VERIFICATION_SIZE ≤ key_cert) :
    (rcar_auth_ta_certificate p g w m key_cert secmem_ta).trace.filter Event.isMemcpy
      = [Event.memcpy p.TA_VERIFICATION_BASE
          (key_cert + (rcar_auth_ta_certificate_sizes m key_cert).key_cert_size
            + (rcar_auth_ta_certificate_sizes m key_cert).content_cert_size)
          (rcar_auth_ta_certificate_sizes m key_cert).object_size,
         Event.memcpy (TA_KEY_CERT_ADDR p) key_cert
          (rcar_auth_ta_certificate_sizes m key_cert).key_cert_size,
         Event.memcpy (TA_CONTENT_CERT_ADDR p)
          (key_cert + (rcar_auth_ta_certificate_sizes m key_cert).key_cert_size)
          (rcar_auth_ta_certificate_sizes m key_cert).content_cert_size] ∧
    (∀ i, i < (rcar_auth_ta_certificate_sizes m key_cert).key_cert_size →
      rcar_auth_ta_certificate_copies p m key_cert (TA_KEY_CERT_ADDR p + i)
        = m (key_cert + i)) ∧
    (∀ i, i < (rcar_auth_ta_certificate_sizes m key_cert).content_cert_size →
      rcar_auth_ta_certificate_copies p m key_cert (TA_CONTENT_CERT_ADDR p + i)
        = m (key_cert + (rcar_auth_ta_certificate_sizes m key_cert).key_cert_size + i)) ∧
    (∀ i, i < (rcar_auth_ta_certificate_sizes m key_cert).object_size →
      rcar_auth_ta_certificate_copies p m key_cert (p.TA_VERIFICATION_BASE + i)
        = m (key_cert + (rcar_auth_ta_certificate_sizes m key_cert).key_cert_size
            + (rcar_auth_ta_certificate_sizes m key_cert).content_cert_size + i)) ∧
    ((get_auth_mode p g w).1 ≠ SECURE_BOOT_MODE →
      (rcar_auth_ta_certificate p g w m key_cert secmem_ta).mem
        = rcar_auth_ta_certificate_copies p m key_cert) ∧
    ((get_auth_mode p g w).1 = SECURE_BOOT_MODE →
      (rcar_auth_ta_certificate p g w m key_cert secmem_ta).mem
        = (w.ROM_SecureBootAPI g.ROM_SecureBootAPI
            (rcar_auth_ta_certificate_copies p m key_cert)
            (TA_KEY_CERT_ADDR p) (TA_CONTENT_CERT_ADDR p) NULL).2) := by
  obtain ⟨hkey, hcontent, hobject⟩ := copies_content p m key_cert hmap hfit hsep
  refine ⟨?_, hkey, hcontent, hobject, ?_, ?_⟩
  · rw [copies_in_trace p g w m key_cert secmem_ta hknown (ptr_add_le_of_fit p _ _ _ hfit)]
    rfl
  · intro hmode
    rw [rcar_auth_normal_path p g w m key_cert secmem_ta hknown (ptr_add_le_of_fit p _ _ _ hfit) hmode]
  · intro hmode
    rw [rcar_auth_secure_path p g w m key_cert secmem_ta hknown (ptr_add_le_of_fit p _ _ _ hfit) hmode]
    split_ifs <;> rfl

/-- C13 on the example input in normal mode: after the call the object area
starts with the object byte `0xAA` of the input, and the key-certificate and
content-certificate slots hold the size-field byte `0x53` at offset 8. -/
theorem staging_copies_content_witness :
    (rcar_auth_ta_certificate example_platform (product_default example_platform)
        (example_world 1 0 5 0) (example_blob 0) 4096 7).mem
      = rcar_auth_ta_certificate_copies example_platform (example_blob 0) 4096 ∧
    rcar_auth_ta_certificate_copies example_platform (example_blob 0) 4096
        (example_platform.TA_VERIFICATION_BASE + 0) = example_blob 0 (4096 + 588 + 600 + 0) ∧
    rcar_auth_ta_certificate_copies example_platform (example_blob 0) 4096
        (TA_KEY_CERT_ADDR example_platform + 8) = example_blob 0 (4096 + 8) ∧
    rcar_auth_ta_certificate_copies example_platform (example_blob 0) 4096
        (TA_CONTENT_CERT_ADDR example_platform + 8) = example_blob 0 (4096 + 588 + 8) :=
  have h := staging_copies_content example_platform (product_default example_platform)
    (example_world 1 0 5 0) (example_blob 0) 4096 7
    (by decide) (by decide) (by decide) (by decide)
  ⟨h.2.2.2.2.1 (by decide), h.2.2.2.1 0 (by decide), h.2.1 8 (by decide),
   h.2.2.1 8 (by decide)⟩

/-- For every input on which `rcar_auth_ta_certificate` performs a copy and
whose pointer sum `TA_VERIFICATION_BASE + object_size` stays inside the
address space, the memory map having at least three slots: the copies are the
three `memcpy`s to `TA_VERIFICATION_BASE`, `TA_KEY_CERT_ADDR` and
`TA_CONTENT_CERT_ADDR`; both effective certificate sizes are at most 4096;
the destination ranges lie inside the object area, the key-certificate area
and the content-certificate area respectively; they follow one another
without overlap and none of them meets the non-cache stack area. -/
theorem copy_destinations_in_areas_without_wrap (p : Platform) (g : Product) (w : World)
    (m : Mem) (key_cert secmem_ta : Nat)
    (hL : 3 * 4096 ≤ p.TA_VERIFICATION_SIZE)
    (hnowrap : p.TA_VERIFICATION_BASE
        + (rcar_auth_ta_certificate_sizes m key_cert).object_size < 2 ^ ptr_bits p)
    (hcopy : (rcar_auth_ta_certificate p g w m key_cert secmem_ta).trace.filter
      Event.isMemcpy ≠ []) :
    (rcar_auth_ta_certificate p g w m key_cert secmem_ta).trace.filter Event.isMemcpy
      = [Event.memcpy p.TA_VERIFICATION_BASE
          ((rcar_auth_ta_certificate_sizes m key_cert).content_cert
            + (rcar_auth_ta_certificate_sizes m key_cert).content_cert_size)
          (rcar_auth_ta_certificate_sizes m key_cert).object_size,
         Event.memcpy (TA_KEY_CERT_ADDR p) key_cert
          (rcar_auth_ta_certificate_sizes m key_cert).key_cert_size,
         Event.memcpy (TA_CONTENT_CERT_ADDR p)
          (rcar_auth_ta_certificate_sizes m key_cert).content_cert
          (rcar_auth_ta_certificate_sizes m key_cert).content_cert_size] ∧
    (rcar_auth_ta_certificate_sizes m key_cert).key_cert_size ≤ 4096 ∧
    (rcar_auth_ta_certificate_sizes m key_cert).content_cert_size ≤ 4096 ∧
    (∀ a, p.TA_VERIFICATION_BASE ≤ a →
      a < p.TA_VERIFICATION_BASE + (rcar_auth_ta_certificate_sizes m key_cert).object_size →
      in_ta_object_area p a = true ∧ in_noncache_stack_area p a = false) ∧
    (∀ a, TA_KEY_CERT_ADDR p ≤ a →
      a < TA_KEY_CERT_ADDR p + (rcar_auth_ta_certificate_sizes m key_cert).key_cert_size →
      in_key_cert_area p a = true ∧ in_noncache_stack_area p a = false) ∧
    (∀ a, TA_CONTENT_CERT_ADDR p ≤ a →
      a < TA_CONTENT_CERT_ADDR p
          + (rcar_auth_ta_certificate_sizes m key_cert).content_cert_size →
      in_content_cert_area p a = true ∧ in_noncache_stack_area p a = false) ∧
    p.TA_VERIFICATION_BASE + (rcar_auth_ta_certificate_sizes m key_cert).object_size
      ≤ TA_KEY_CERT_ADDR p ∧
    TA_KEY_CERT_ADDR p + (rcar_auth_ta_certificate_sizes m key_cert).key_cert_size
      ≤ TA_CONTENT_CERT_ADDR p ∧
    TA_CONTENT_CERT_ADDR p + (rcar_auth_ta_certificate_sizes m key_cert).content_cert_size
      ≤ TA_NONCACHE_STACK_ADDR p - TA_NONCACHE_STACK_AREA_SIZE := by
  obtain ⟨hknown, hchk⟩ := (copies_performed_iff p g w m key_cert secmem_ta).mp hcopy
  have hfit : p.TA_VERIFICATION_BASE
      + (rcar_auth_ta_certificate_sizes m key_cert).object_size ≤ TA_KEY_CERT_ADDR p := by
    rw [ptr_add_eq_sum p _ _ hnowrap] at hchk
    exact hchk
  obtain ⟨hks, hcs, _⟩ := effective_sizes_le m key_cert
  obtain ⟨hs, hc, hk⟩ := slot_addresses p
  have hst : TA_NONCACHE_STACK_AREA_SIZE = 4096 := rfl
  have hfalse : ∀ a, in_noncache_stack_area p a = false
      ↔ ¬ (p.TA_VERIFICATION_BASE + p.TA_VERIFICATION_SIZE - 4096 ≤ a ∧
            a < p.TA_VERIFICATION_BASE + p.TA_VERIFICATION_SIZE) := by
    intro a
    rw [← (area_bounds p a).2.2.2]
    simp
  refine ⟨copies_in_trace p g w m key_cert secmem_ta hknown hchk, hks, hcs,
    ?_, ?_, ?_, hfit, by omega, by omega⟩
  · intro a h1 h2
    rw [(area_bounds p a).1, hfalse]
    omega
  · intro a h1 h2
    rw [(area_bounds p a).2.1, hfalse]
    omega
  · intro a h1 h2
    rw [(area_bounds p a).2.2.1, hfalse]
    omega

/-- The destination ranges on the 64-bit example platform, for the example
input in secure mode with a rejecting ROM. -/
theorem copy_destinations_in_areas_example :
    (rcar_auth_ta_certificate_sizes (example_blob 0) 4096).key_cert_size ≤ 4096 ∧
    (rcar_auth_ta_certificate_sizes (example_blob 0) 4096).content_cert_size ≤ 4096 ∧
    example_platform.TA_VERIFICATION_BASE
        + (rcar_auth_ta_certificate_sizes (example_blob 0) 4096).object_size
      ≤ TA_KEY_CERT_ADDR example_platform :=
  have h := copy_destinations_in_areas_without_wrap example_platform
    (product_default example_platform) (example_world 0 0 5 1) (example_blob 0) 4096 7
    (by decide) (by decide) (by decide)
  ⟨h.2.1, h.2.2.1, h.2.2.2.2.2.2.1⟩

/-- C17 fails on the 32-bit build.  On the example platform built with
`ARM32` (verification region of `0x100000` bytes, at least three slots) and
the input with block count `0x30000002`, `rcar_auth_ta_certificate` performs
its copies, and the destination range of the first one,
`[0x44100000, 0x44100000 + 0xC0000008)`, is not inside the TA object area:
it contains the first byte of the key-certificate area, of the
content-certificate area and of the non-cache stack area, and the stack byte
at `0x441FF000`, 0 before the call, is `0xBB` after it. -/
theorem copy_destination_escapes_arm32 :
    3 * 4096 ≤ example_platform_arm32.TA_VERIFICATION_SIZE ∧
    (rcar_auth_ta_certificate example_platform_arm32
        (product_default example_platform_arm32) (example_world 1 0 5 0)
        arm32_wrap_blob 4096 7).trace.filter Event.isMemcpy
      = [Event.memcpy example_platform_arm32.TA_VERIFICATION_BASE 5284 0xC0000008,
         Event.memcpy (TA_KEY_CERT_ADDR example_platform_arm32) 4096 588,
         Event.memcpy (TA_CONTENT_CERT_ADDR example_platform_arm32) 4684 600] ∧
    (example_platform_arm32.TA_VERIFICATION_BASE ≤ 0x441FD000 ∧
      0x441FD000 < example_platform_arm32.TA_VERIFICATION_BASE + 0xC0000008 ∧
      in_key_cert_area example_platform_arm32 0x441FD000 = true ∧
      in_ta_object_area example_platform_arm32 0x441FD000 = false) ∧
    (example_platform_arm32.TA_VERIFICATION_BASE ≤ 0x441FE000 ∧
      0x441FE000 < example_platform_arm32.TA_VERIFICATION_BASE + 0xC0000008 ∧
      in_content_cert_area example_platform_arm32 0x441FE000 = true ∧
      in_ta_object_area example_platform_arm32 0x441FE000 = false) ∧
    (example_platform_arm32.TA_VERIFICATION_BASE ≤ 0x441FF000 ∧
      0x441FF000 < example_platform_arm32.TA_VERIFICATION_BASE + 0xC0000008 ∧
      in_noncache_stack_area example_platform_arm32 0x441FF000 = true ∧
      in_ta_object_area example_platform_arm32 0x441FF000 = false) ∧
    arm32_wrap_blob 0x441FF000 = 0 ∧
    (rcar_auth_ta_certificate example_platform_arm32
        (product_default example_platform_arm32) (example_world 1 0 5 0)
        arm32_wrap_blob 4096 7).mem 0x441FF000 = 0xBB := by
  decide

/-- C18: the object-length word `get_object_size` reads is at offset
`get_key_cert_size(content header) + 8` of the content certificate.  When
`get_content_cert_size(content header)` is at most 4096 the effective
content-certificate size `cs` is that size and the word is the last four
bytes `[cs - 4, cs)`; when it is above 4096 the effective size is `0x268` and
the word starts at an offset of at least `0x268`; so the word lies inside the
effective content certificate if and only if the size was not replaced. -/
theorem object_length_word_position (m : Mem) (key_cert : Nat) :
    (rcar_auth_ta_certificate_sizes m key_cert).object_size
      = (4 * load32 m ((rcar_auth_ta_certificate_sizes m key_cert).content_cert
          + (get_key_cert_size
              (as_u32_ptr m (rcar_auth_ta_certificate_sizes m key_cert).content_cert) + 8)))
        % 2 ^ 32 ∧
    (get_content_cert_size
        (as_u32_ptr m (rcar_auth_ta_certificate_sizes m key_cert).content_cert) ≤ 4096 →
      (rcar_auth_ta_certificate_sizes m key_cert).content_cert_size
        = get_content_cert_size
            (as_u32_ptr m (rcar_auth_ta_certificate_sizes m key_cert).content_cert) ∧
      get_key_cert_size
          (as_u32_ptr m (rcar_auth_ta_certificate_sizes m key_cert).content_cert) + 8
        = (rcar_auth_ta_certificate_sizes m key_cert).content_cert_size - 4 ∧
      get_key_cert_size
          (as_u32_ptr m (rcar_auth_ta_certificate_sizes m key_cert).content_cert) + 8 + 4
        = (rcar_auth_ta_certificate_sizes m key_cert).content_cert_size) ∧
    (get_content_cert_size
        (as_u32_ptr m (rcar_auth_ta_certificate_sizes m key_cert).content_cert) > 4096 →
      (rcar_auth_ta_certificate_sizes m key_cert).content_cert_size = 0x268 ∧
      0x268 ≤ get_key_cert_size
          (as_u32_ptr m (rcar_auth_ta_certificate_sizes m key_cert).content_cert) + 8) ∧
    (get_key_cert_size
          (as_u32_ptr m (rcar_auth_ta_certificate_sizes m key_cert).content_cert) + 8 + 4
        ≤ (rcar_auth_ta_certificate_sizes m key_cert).content_cert_size
      ↔ get_content_cert_size
          (as_u32_ptr m (rcar_auth_ta_certificate_sizes m key_cert).content_cert) ≤ 4096) := by
  have ho := get_object_size_eq m (rcar_auth_ta_certificate_sizes m key_cert).content_cert
  have hc := get_content_cert_size_eq
    (as_u32_ptr m (rcar_auth_ta_certificate_sizes m key_cert).content_cert)
  have hcs : (rcar_auth_ta_certificate_sizes m key_cert).content_cert_size
      = (if get_content_cert_size
              (as_u32_ptr m (rcar_auth_ta_certificate_sizes m key_cert).content_cert) > 4096
         then 0x268
         else get_content_cert_size
              (as_u32_ptr m (rcar_auth_ta_certificate_sizes m key_cert).content_cert)) := rfl
  refine ⟨ho, ?_, ?_, ?_⟩
  · intro hle
    rw [hcs, if_neg (by omega)]
    omega
  · intro hgt
    rw [hcs, if_pos hgt]
    omega
  · rw [hcs]
    split_ifs with h <;> omega

/-- C18 on the example input (content-certificate size `0x258`, kept) and on
an input whose content header has size field `0x400` (size `0x110C`,
replaced). -/
theorem object_length_word_position_witness :
    get_key_cert_size
        (as_u32_ptr (example_blob 0)
          (rcar_auth_ta_certificate_sizes (example_blob 0) 4096).content_cert) + 8 + 4
      = (rcar_auth_ta_certificate_sizes (example_blob 0) 4096).content_cert_size ∧
    0x268 ≤ get_key_cert_size
        (as_u32_ptr oversize_cert_mem
          (rcar_auth_ta_certificate_sizes oversize_cert_mem 0).content_cert) + 8 :=
  ⟨((object_length_word_position (example_blob 0) 4096).2.1 (by decide)).2.2,
   ((object_length_word_position oversize_cert_mem 0).2.2.1 (by decide)).2⟩

end Rcar
